import Mathlib

/-!
# Token Alerting Service — verification of the event pipeline

Shallow embedding of the webhook gateway (`ingestion_service.py`), the
processing worker (`processing_worker.py`) and the notification filter
(`notification_worker.py`) of the Token Alerting Service, together with
proofs about the retry/backoff contract, the persistence routines, the
signature check and the subscriber filters.

Modelling conventions:
* Python dict fields that may be absent are `Option` fields; `d.get(k)` is the
  `Option` value, `d[k]` on a missing key is a raised `KeyError` (an explicit
  error branch).
* Exceptions are explicit `Except Err` values; external collaborators
  (chain RPC, source-verification lookup, audit service, classification
  heuristic) are oracle parameters that may either return a value or raise.
* Python floats are modelled as exact rationals (`ℚ`); the paths exercised by
  the claims perform no float rounding.
* Redis structures are explicit lists: `webhook_queue`/`failed_events`/
  `notification_queue` are FIFO lists, `retry_queue` is a list of
  member/score pairs with ZADD update-or-insert semantics.
* keccak-256 (used by `Web3.keccak`) is implemented in full so that the
  signature-verification claims are settled against the real digest.
-/

set_option maxRecDepth 100000

namespace TokenAlert

abbrev Err := String

/-! ## Python-style string and slicing helpers (ASCII model) -/

/-- Python `s[n:]`. -/
def pyDrop (n : Nat) (s : String) : String := String.mk (s.data.drop n)

/-- Python `s[:n]`. -/
def pyTake (n : Nat) (s : String) : String := String.mk (s.data.take n)

/-- Python `s[a:b]`. -/
def pySlice (a b : Nat) (s : String) : String :=
  String.mk ((s.data.take b).drop a)

/-- Python `s[-n:]`: the last `n` characters (the whole string when shorter). -/
def pyLastN (n : Nat) (s : String) : String :=
  String.mk (s.data.drop (s.data.length - n))

/-- ASCII model of Python `str.lower()` (all strings in scope are ASCII). -/
def asciiLowerChar (c : Char) : Char :=
  if 'A' ≤ c ∧ c ≤ 'Z' then Char.ofNat (c.toNat + 32) else c

def asciiLower (s : String) : String := String.mk (s.data.map asciiLowerChar)

/-- ASCII model of Python `str.upper()`. -/
def asciiUpperChar (c : Char) : Char :=
  if 'a' ≤ c ∧ c ≤ 'z' then Char.ofNat (c.toNat - 32) else c

def asciiUpper (s : String) : String := String.mk (s.data.map asciiUpperChar)

/-- Python `str.capitalize()`: first character upper-cased, the rest lower-cased. -/
def pyCapitalize (s : String) : String :=
  match s.data with
  | [] => ""
  | c :: cs => String.mk (asciiUpperChar c :: cs.map asciiLowerChar)

/-- Python `s.startswith(p)`. -/
def pyStartsWith (s p : String) : Bool := s.data.take p.data.length = p.data

/-- Strip a leading `"0x"` as done twice inside `verify_moralis_signature`. -/
def strip0x (s : String) : String :=
  if pyStartsWith s "0x" then pyDrop 2 s else s

def isHexChar (c : Char) : Bool :=
  ('0' ≤ c ∧ c ≤ '9') ∨ ('a' ≤ c ∧ c ≤ 'f') ∨ ('A' ≤ c ∧ c ≤ 'F')

def hexCharVal (c : Char) : Nat :=
  if '0' ≤ c ∧ c ≤ '9' then c.toNat - 48
  else if 'a' ≤ c ∧ c ≤ 'f' then c.toNat - 87
  else if 'A' ≤ c ∧ c ≤ 'F' then c.toNat - 55
  else 0

/-- Model of Python `int(s, 16)` on the hex slices taken from transaction
input data: succeeds on a nonempty string of hex digits, raises otherwise. -/
def hexNat? (s : String) : Option Nat :=
  if s.data = [] then none
  else if s.data.all isHexChar then
    some (s.data.foldl (fun a c => a * 16 + hexCharVal c) 0)
  else none

/-! ## keccak-256

Full implementation of the legacy Keccak-256 used by `Web3.keccak`
(pad10*1 with suffix byte `0x01`, rate 1088 bits). The state is a list of
25 lanes of 64 bits, stored as `Nat` reduced mod `2^64`. -/

def lane (s : List Nat) (i : Nat) : Nat := s.getD i 0

def rotl64 (x n : Nat) : Nat :=
  (((x <<< n) ||| (x >>> (64 - n))) % 18446744073709551616)

def keccakTheta (s : List Nat) : List Nat :=
  let c := (List.range 5).map (fun x =>
    lane s x ^^^ lane s (x + 5) ^^^ lane s (x + 10) ^^^
      lane s (x + 15) ^^^ lane s (x + 20))
  let d := (List.range 5).map (fun x =>
    lane c ((x + 4) % 5) ^^^ rotl64 (lane c ((x + 1) % 5)) 1)
  (List.range 25).map (fun i => lane s i ^^^ lane d (i % 5))

/-- The ρ rotation offsets, generated by the standard coordinate walk:
starting from `(1,0)`, offset `(t+1)(t+2)/2 mod 64` is assigned to the
current lane and the walk moves by `(x,y) ↦ (y, 2x+3y mod 5)`; lane `(0,0)`
keeps offset 0.  Indexed by `x + 5y`. -/
def keccakRotOffsets : List Nat :=
  ((List.range 24).foldl
    (fun acc t =>
      let l := acc.1
      let x := acc.2.1
      let y := acc.2.2
      (l.set (x + 5 * y) ((t + 1) * (t + 2) / 2 % 64), y, (2 * x + 3 * y) % 5))
    (List.replicate 25 0, 1, 0)).1

/-- Combined ρ and π steps: `B[y, 2x+3y] = ROT(A[x, y], r[x, y])`. -/
def keccakRhoPi (s : List Nat) : List Nat :=
  (List.range 25).map (fun j =>
    let xp := j % 5
    let yp := j / 5
    let x := (xp + 3 * yp) % 5
    let y := xp
    rotl64 (lane s (x + 5 * y)) (lane keccakRotOffsets (x + 5 * y)))

def keccakChi (b : List Nat) : List Nat :=
  (List.range 25).map (fun j =>
    let x := j % 5
    let y := j / 5
    lane b j ^^^
      ((18446744073709551615 ^^^ lane b ((x + 1) % 5 + 5 * y)) &&&
        lane b ((x + 2) % 5 + 5 * y)))

/-- One step of the degree-8 LFSR (`x^8 + x^6 + x^5 + x^4 + 1`) generating
the round-constant bit sequence `rc(t)`. -/
def keccakLfsrStep (r : Nat) : Nat :=
  ((r <<< 1) ^^^ ((r >>> 7) * 0x71)) % 256

def keccakRcBit (t : Nat) : Nat :=
  ((List.range t).foldl (fun r _ => keccakLfsrStep r) 1) % 2

/-- Round constant `RC[i] = Σ_{j≤6} rc(7i + j) · 2^(2^j − 1)`. -/
def keccakRC (i : Nat) : Nat :=
  (List.range 7).foldl (fun acc j => acc + keccakRcBit (7 * i + j) * 2 ^ (2 ^ j - 1)) 0

def keccakRoundConstants : List Nat := (List.range 24).map keccakRC

def keccakIota (rc : Nat) (s : List Nat) : List Nat :=
  match s with
  | [] => []
  | a :: rest => (a ^^^ rc) :: rest

def keccakF (s : List Nat) : List Nat :=
  keccakRoundConstants.foldl
    (fun st rc => keccakIota rc (keccakChi (keccakRhoPi (keccakTheta st)))) s

/-- Read lane `i` (8 bytes, little-endian) out of a 136-byte block. -/
def laneOfBytes (block : List Nat) (i : Nat) : Nat :=
  (List.range 8).foldl (fun a k => a + (block.getD (8 * i + k) 0) <<< (8 * k)) 0

def keccakAbsorbBlock (s : List Nat) (block : List Nat) : List Nat :=
  keccakF ((List.range 25).map (fun i =>
    if i < 17 then lane s i ^^^ laneOfBytes block i else lane s i))

/-- Keccak pad10*1 with domain byte `0x01` (legacy Keccak, not SHA-3). -/
def keccakPad (m : List Nat) : List Nat :=
  let r := 136 - m.length % 136
  if r = 1 then m ++ [0x81]
  else m ++ [0x01] ++ List.replicate (r - 2) 0 ++ [0x80]

/-- Split into 136-byte blocks; `fuel` bounds the recursion structurally. -/
def chunk136 : Nat → List Nat → List (List Nat)
  | 0, _ => []
  | _, [] => []
  | fuel + 1, m => m.take 136 :: chunk136 fuel (m.drop 136)

def keccakInitState : List Nat := List.replicate 25 0

/-- keccak-256 of a byte string, as the 32-byte digest. -/
def keccak256 (m : List Nat) : List Nat :=
  let padded := keccakPad m
  let final := (chunk136 padded.length padded).foldl keccakAbsorbBlock keccakInitState
  (List.range 32).map (fun i => (lane final (i / 8) >>> (8 * (i % 8))) % 256)

def hexDigitChar (n : Nat) : Char :=
  if n < 10 then Char.ofNat (48 + n) else Char.ofNat (87 + n)

def bytesToHex (bs : List Nat) : String :=
  String.mk (bs.foldr (fun b acc => hexDigitChar (b / 16) :: hexDigitChar (b % 16) :: acc) [])

/-- `Web3.keccak(text=...).hex()`: `"0x"`-prefixed lowercase hex of the digest. -/
def keccakHexDigest (m : List Nat) : String := "0x" ++ bytesToHex (keccak256 m)

/-- UTF-8 bytes of an ASCII string (`str.encode()`); all strings handled by the
service (hex signatures, secrets) are ASCII. -/
def strBytes (s : String) : List Nat := s.data.map Char.toNat

/-! ## `WebhookService.verify_moralis_signature` (ingestion_service.py)

The gateway recomputes `Web3.keccak(text=(body + secret.encode()).decode()).hex()`
and compares it with the `x-signature` header.  `bytes.decode()` raises on
invalid UTF-8, which the handler's `except` turns into `False`; the model
conservatively requires the bytes to be ASCII (every concrete input used by
the service is). -/
def verify_moralis_signature (devMode : Bool) (providedSig : Option String)
    (secret : Option String) (body : Option (List Nat)) : Bool :=
  if devMode then true
  else
    match providedSig with
    | none => false
    | some p0 =>
      if p0 = "" then false
      else
        let p := strip0x p0
        match secret with
        | none => false
        | some sec =>
          if sec = "" then false
          else
            match body with
            | none => false
            | some b =>
              let data := b ++ strBytes sec
              if ¬ data.all (· < 128) then false
              else decide (p = strip0x (keccakHexDigest data))

/-- The acceptance predicate in the words of the claim: the provided header
value equals the keccak-256 digest of `body || secret`, compared as hex
case-insensitively after stripping any `0x` prefix from either side.
(Spec-side definition, for comparison with `verify_moralis_signature`.) -/
def specAcceptsSignature (provided : String) (secret : String) (body : List Nat) : Bool :=
  decide (asciiLower (strip0x provided) =
    asciiLower (strip0x (keccakHexDigest (body ++ strBytes secret))))

/-! ## Notification fanout: `apply_filters` (notification_worker.py)

A filter value stored in Redis can be absent, the empty string (the cache
maps SQL `NULL` to `''`) or a number; `FilterNum` models the three cases for
the numeric filter fields.  Python truthiness: absent, `''` and `0` are all
falsy. -/

inductive FilterNum where
  | absent : FilterNum
  | blank : FilterNum
  | num : ℚ → FilterNum

deriving DecidableEq

/-- Python truthiness of a numeric filter field. -/
def FilterNum.truthy : FilterNum → Bool
  | .absent => false
  | .blank => false
  | .num q => q ≠ 0

structure Filters where
  buy_tax : FilterNum := .absent
  sell_tax : FilterNum := .absent
  locked_lp : FilterNum := .absent
  risk_level : Option String := none
  classification : Option String := none
  alert_type : Option String := none
  contract_verified : Option Bool := none
  has_social : Option Bool := none
  blockchains : List String := []

deriving DecidableEq

/-- The token snapshot carried by a `NotificationMessage`. -/
structure MessageData where
  buy_tax : Option String := none
  sell_tax : Option String := none
  risk_level : Option String := none
  contract_verified : Option Bool := none
  classification : Option String := none
  event_type : Option String := none
  twitter : Option String := none
  telegram : Option String := none
  discord : Option String := none
  website : Option String := none
  chain_id : Option String := none
  locked_lp : Option ℚ := none

deriving DecidableEq

/-- Python truthiness of an optional string value. -/
def optStrTruthy : Option String → Bool
  | some s => s ≠ ""
  | none => false

/-- `check_socials_exist` (notification_worker.py). -/
def check_socials_exist (m : MessageData) : Bool :=
  optStrTruthy m.twitter ∨ optStrTruthy m.telegram ∨
    optStrTruthy m.discord ∨ optStrTruthy m.website

/-- The module-level `chain_id_mapping`. -/
def chain_id_mapping : Option String → Option String
  | some "0x1" => some "Ethereum"
  | some "0xaa36a7" => some "Sepolia Testnet"
  | _ => none

/-- `risk_level_mapping` inside `apply_filters`; `dict.get(..., -1)` is the
`.getD (-1)` below. -/
def risk_level_mapping : String → Option Int
  | "Safe" => some 0
  | "Low" => some 1
  | "Medium" => some 2
  | "High" => some 3
  | _ => none

def riskValue (s : String) : Int :=
  (risk_level_mapping (pyCapitalize s)).getD (-1)

/-- The blockchain allow-list check of `apply_filters`:
`filter_blockchain and message_blockchain and message_blockchain.lower() not in [...]`. -/
def blockchainExcluded (f : Filters) (m : MessageData) : Bool :=
  decide (f.blockchains ≠ []) &&
    (match chain_id_mapping m.chain_id with
     | some b => decide (asciiLower b ∉ f.blockchains.map asciiLower)
     | none => false)

/-- The event-type selector check of `apply_filters`. -/
def eventTypeExcluded (filterEvent msgEvent : String) : Bool :=
  filterEvent ≠ "all" ∧
    ((filterEvent = "new tge" ∧ msgEvent ≠ "new_token") ∨
     (filterEvent = "new dex listing" ∧ msgEvent ≠ "new_pair"))

/-- The locked-LP floor check of `apply_filters` (only for non-`new_token`
events when the filter is set and the alert type is not "new tge");
`float(filter_locked_lp)` cannot fail on the truthy numeric filter. -/
def lockedLpExcluded (f : Filters) (filterEvent msgEvent : String)
    (msgLocked : ℚ) : Bool :=
  decide (msgEvent ≠ "new_token") && f.locked_lp.truthy &&
    decide (filterEvent ≠ "new tge") &&
    (match f.locked_lp with
     | .num q => decide (msgLocked < q)
     | _ => false)

/-- The classification allow/deny check of `apply_filters`. -/
def classificationExcluded (filterClass msgClass : String) : Bool :=
  filterClass ≠ "all" ∧
    (if filterClass = "exclude memecoins" then msgClass = "memecoins"
     else filterClass ≠ msgClass)

/-- The ordinal risk-ceiling check of `apply_filters`: run only when the
filter is set; unknown levels map to `-1` via `dict.get(..., -1)`. -/
def riskExcluded (filterRisk msgRisk : String) : Bool :=
  filterRisk ≠ "" ∧ riskValue msgRisk > riskValue filterRisk

/-- One tax-ceiling check (buy or sell).  `parse` models Python
`float(...)` on the message value after `str(x).replace('%','').strip()`;
a parse failure hits the `except` branch, which returns `False` (fail
closed). -/
def taxExcluded (parse : String → Option ℚ) (filterTax : FilterNum)
    (msgTax : String) : Bool :=
  filterTax.truthy &&
    (match filterTax with
     | .num q =>
       if msgTax ≠ "" then
         match parse ((msgTax.replace "%" "").trim) with
         | some v => decide (v > q)
         | none => true
       else false
     | _ => false)

/-- `apply_filters` (notification_worker.py): the sequence of early-return
checks, transcribed as a chain of guards. -/
def apply_filters (parse : String → Option ℚ) (f : Filters) (m : MessageData)
    : Bool :=
  let filterRisk := asciiLower (f.risk_level.getD "")
  let filterClass := asciiLower (f.classification.getD "")
  let filterEvent := asciiLower (f.alert_type.getD "")
  let msgBuyTax := m.buy_tax.getD ""
  let msgSellTax := m.sell_tax.getD ""
  let msgRisk := asciiLower (m.risk_level.getD "")
  let msgClass := asciiLower (m.classification.getD "")
  let msgEvent := asciiLower (m.event_type.getD "")
  let msgLocked := m.locked_lp.getD 0
  if blockchainExcluded f m then false
  else if f.has_social = some true ∧ ¬ check_socials_exist m then false
  else if eventTypeExcluded filterEvent msgEvent then false
  else if lockedLpExcluded f filterEvent msgEvent msgLocked then false
  else if classificationExcluded filterClass msgClass then false
  else if f.contract_verified = some true ∧ m.contract_verified ≠ some true
    then false
  else if riskExcluded filterRisk msgRisk then false
  else if taxExcluded parse f.buy_tax msgBuyTax then false
  else if taxExcluded parse f.sell_tax msgSellTax then false
  else true

/-- The empty filter record: every field absent (`filters = {}`). -/
def emptyFilters : Filters := {}

/-! ## Webhook gateway (ingestion_service.py)

The inbound payload is a JSON dict; absent and empty containers collapse to
`[]`/`none` exactly as Python truthiness does in the guards below.  The
constants `LOCK_LP_FUNCTION_SIGNATURE`, `OWNERSHIP_TRANSFERRED_SIGNATURE`,
`PAIR_CREATED_SIGNATURE` and `RENOUNCED_ADDRESSES` come from
`config.settings` (not part of the sources), so they are parameters of the
model; no claim depends on their values.  `Web3.to_checksum_address` and
`get_token_from_pair` are external collaborators, likewise parameters. -/

structure AbiEntry where
  name : Option String := none

deriving DecidableEq

structure Tx where
  input : Option String := none
  hash : Option String := none
  toAddress : Option String := none
  fromAddress : Option String := none

deriving DecidableEq

structure LogEntry where
  address : Option String := none
  topic0 : Option String := none
  topic2 : Option String := none

deriving DecidableEq

structure Block where
  number : Option Nat := none

deriving DecidableEq

structure Payload where
  confirmed : Bool := false
  abi : List AbiEntry := []
  txs : List Tx := []
  logs : List LogEntry := []
  id : Option String := none
  chainId : Option String := none
  block : Option Block := none

deriving DecidableEq

structure GatewayConfig where
  lockSig : String
  ownershipSig : String
  pairCreatedSig : String
  renouncedAddresses : List String

instance {α β : Type} [DecidableEq α] [DecidableEq β] : DecidableEq (Except α β) :=
  fun a b =>
    match a, b with
    | .ok x, .ok y =>
      if h : x = y then .isTrue (by rw [h]) else .isFalse (by simp [h])
    | .error x, .error y =>
      if h : x = y then .isTrue (by rw [h]) else .isFalse (by simp [h])
    | .ok _, .error _ => .isFalse (by simp)
    | .error _, .ok _ => .isFalse (by simp)

/-- Keep the first occurrence of each element (`list(set(...))` dedups; the
set's iteration order is arbitrary, modelled as first-occurrence order). -/
def dedupAux : List String → List String → List String
  | [], _ => []
  | a :: t, seen => if a ∈ seen then dedupAux t seen else a :: dedupAux t (a :: seen)

def dedupKeepFirst (l : List String) : List String := dedupAux l []

/-- `extract_addresses_from_logs` (ingestion_service.py): the distinct
addresses among the truthy `address` fields of the logs. -/
def extract_addresses_from_logs (logs : List LogEntry) : List String :=
  dedupKeepFirst (logs.filterMap (fun l =>
    match l.address with
    | some a => if a ≠ "" then some a else none
    | none => none))

/-- The `topic0`-based fallback classification inside
`WebhookService.get_event_type`. -/
def classifyFromLogs (cfg : GatewayConfig) (d : Payload) : String :=
  match d.logs with
  | [] => "unknown"
  | l :: _ =>
    if l.topic0 = some cfg.ownershipSig then
      let newOwner := "0x" ++ pyLastN 40 (l.topic2.getD "")
      if asciiLower newOwner ∈ cfg.renouncedAddresses.map asciiLower then
        "ownership_renounced"
      else "new_token"
    else if l.topic0 = some cfg.pairCreatedSig then "new_pair"
    else "unknown"

/-- `WebhookService.get_event_type` (ingestion_service.py).  `data['txs'][0]`
on a payload without transactions raises (propagating to the handler); a
failed decode of the lock amount is caught and falls through to the log
checks, as does a zero amount. -/
def get_event_type (cfg : GatewayConfig) (d : Payload) : Except Err String :=
  match d.abi with
  | a :: _ =>
    if a.name = some "LockLPToken" then
      match d.txs with
      | [] => .error "IndexError: txs"
      | tx :: _ =>
        let inputData := tx.input.getD ""
        if pyStartsWith inputData cfg.lockSig then
          match hexNat? (pySlice 64 128 (pyDrop 10 inputData)) with
          | some amount =>
            if amount > 0 then .ok "lock_lp"
            else .ok (classifyFromLogs cfg d)
          | none => .ok (classifyFromLogs cfg d)
        else .ok (classifyFromLogs cfg d)
    else .ok (classifyFromLogs cfg d)
  | [] => .ok (classifyFromLogs cfg d)

/-- `WebhookService.is_confirmed`. -/
def is_confirmed (d : Payload) : Bool := d.confirmed

structure DecodedLock where
  lp_token : String
  amount : ℚ
  raw_amount : Nat
  unlock_time : Nat

deriving DecidableEq

/-- `decode_lock_lp_input` (ingestion_service.py): three 32-byte words after
the 4-byte selector; any parse or checksum failure is caught and yields
`None`.  `Web3.to_checksum_address` is the `checksum` parameter. -/
def decode_lock_lp_input (checksum : String → Option String)
    (inputData : String) : Option DecodedLock :=
  let clean := pyDrop 10 inputData
  let lpRaw := "0x" ++ pyLastN 40 (pyTake 64 clean)
  match hexNat? (pySlice 64 128 clean) with
  | none => none
  | some rawAmount =>
    match hexNat? (pySlice 128 192 clean) with
    | none => none
    | some unlockTime =>
      match checksum lpRaw with
      | none => none
      | some lp =>
        some { lp_token := lp, amount := (rawAmount : ℚ) / 10 ^ 18,
               raw_amount := rawAmount, unlock_time := unlockTime }

structure TransformedLock where
  chain_id : Option String := none
  block_number : Option Nat := none
  transaction_hash : Option String := none
  locker : Option String := none
  user : Option String := none
  lp_token : Option String := none
  amount : Option ℚ := none
  unlock_time : Option Nat := none

deriving DecidableEq

/-- `transform_lock_lp_data` (ingestion_service.py); all exceptions inside it
are caught and become `None`. -/
def transform_lock_lp_data (checksum : String → Option String) (d : Payload)
    : Option TransformedLock :=
  match d.txs with
  | [] => none
  | tx :: _ =>
    match tx.input with
    | none => none
    | some inputData =>
      match decode_lock_lp_input checksum inputData with
      | none => none
      | some dec =>
        some { chain_id := d.chainId, block_number := d.block.bind (·.number),
               transaction_hash := tx.hash, locker := tx.toAddress,
               user := tx.fromAddress, lp_token := some dec.lp_token,
               amount := some dec.amount, unlock_time := some dec.unlock_time }

/-- A queued job (`event_data` dicts built by the gateway, consumed by the
worker).  `raw_data` and `received_at` are carried opaquely and never read by
any code under verification, so they are omitted from the model. -/
structure EventData where
  event_id : Option String := none
  event_type : Option String := none
  chain_id : Option String := none
  block_number : Option Nat := none
  address : Option String := none
  token_address : Option String := none
  pair_address : Option String := none
  transformed_data : Option TransformedLock := none
  retry_count : Option Nat := none
  last_error : Option String := none
  last_retry : Option Nat := none

deriving DecidableEq

structure HttpResponse where
  status : Nat
  message : String

deriving DecidableEq

def mkNewTokenJob (d : Payload) (defaultId : String) (a : String) : EventData :=
  { event_id := some (d.id.getD defaultId ++ "_" ++ a),
    event_type := some "new_token", chain_id := d.chainId,
    block_number := d.block.bind (·.number), address := some a,
    retry_count := some 0 }

def mkOwnershipJob (d : Payload) (defaultId : String) (a : String) : EventData :=
  { event_id := some (d.id.getD defaultId ++ "_" ++ a),
    event_type := some "ownership_renounced", chain_id := d.chainId,
    block_number := d.block.bind (·.number), token_address := some a,
    retry_count := some 0 }

/-- The `new_pair` job; `get_token_from_pair` (external helper) is the
`pairData` argument, whose result, when truthy, fills the token and pair
addresses. -/
def mkNewPairJob (d : Payload) (defaultId : String)
    (pairData : Option (String × String)) : EventData :=
  let base : EventData :=
    { event_id := some (d.id.getD defaultId), event_type := some "new_pair",
      chain_id := d.chainId, block_number := d.block.bind (·.number),
      retry_count := some 0 }
  match pairData with
  | some (tok, pair) => { base with token_address := some tok, pair_address := some pair }
  | none => base

def mkLockJob (d : Payload) (defaultId : String) (bd : TransformedLock) : EventData :=
  { event_id := some (d.id.getD defaultId), event_type := some "lock_lp",
    chain_id := d.chainId, block_number := d.block.bind (·.number),
    transformed_data := some bd, retry_count := some 0 }

/-- The `POST` handler `process_webhook` of ingestion_service.py.  `body` is
the outcome of `await request.json()` (`.error` when parsing raises, `.ok
none` when the parsed value is falsy).  Any exception inside the handler's
`try` — including the `HTTPException(400)` for a missing body — is caught by
its `except` clause and re-raised as `HTTPException(500, detail=str(e))`. -/
def gateway_process (cfg : GatewayConfig) (checksum : String → Option String)
    (pairLookup : Option (String × String)) (defaultId : String)
    (sigOk : Bool) (body : Except Err (Option Payload))
    (q : List EventData) : HttpResponse × List EventData :=
  if ¬ sigOk then ({ status := 200, message := "Nice try" }, q)
  else
    match body with
    | .error e => ({ status := 500, message := e }, q)
    | .ok none => ({ status := 500, message := "400: No data received" }, q)
    | .ok (some d) =>
      if ¬ is_confirmed d then
        ({ status := 200, message := "Block not confirmed" }, q)
      else
        match get_event_type cfg d with
        | .error e => ({ status := 500, message := e }, q)
        | .ok t =>
          if t = "unknown" then
            ({ status := 200, message := "Unknown event type" }, q)
          else if t = "new_token" then
            if extract_addresses_from_logs d.logs = [] then
              ({ status := 200, message := "No addresses found" }, q)
            else
              ({ status := 202, message := "accepted" },
                q ++ (extract_addresses_from_logs d.logs).map (mkNewTokenJob d defaultId))
          else if t = "new_pair" then
            ({ status := 202, message := "accepted" },
              q ++ [mkNewPairJob d defaultId pairLookup])
          else if t = "lock_lp" then
            match transform_lock_lp_data checksum d with
            | none =>
              ({ status := 200, message := "Failed to transform LP lock data" }, q)
            | some bd =>
              ({ status := 202, message := "accepted" }, q ++ [mkLockJob d defaultId bd])
          else if t = "ownership_renounced" then
            if extract_addresses_from_logs d.logs = [] then
              ({ status := 200, message := "No addresses found" }, q)
            else
              ({ status := 202, message := "accepted" },
                q ++ (extract_addresses_from_logs d.logs).map (mkOwnershipJob d defaultId))
          else ({ status := 200, message := "" }, q)

/-- A concrete configuration used for the closed evaluations: the genuine
Unicrypt `lockLPToken` selector and the standard `OwnershipTransferred` /
`PairCreated` topic hashes.  No claim depends on these values. -/
def sampleGatewayConfig : GatewayConfig :=
  { lockSig := "0x8af416f6",
    ownershipSig := "0x8be0079c531659141344cd1fd0a4f28419497f9722a3daafe3b4186f6b6457e0",
    pairCreatedSig := "0x0d3648bd0f6ba80134a33ba9275ac585d9d315f0ad8355cddefde31afa28d0e9",
    renouncedAddresses := ["0x0000000000000000000000000000000000000000",
                           "0x000000000000000000000000000000000000dead"] }

/-- The lock-transaction input of the C8 counterexample: the selector, a full
first parameter word, a full nonzero amount word — and nothing else, so the
unlock-time word is missing. -/
def lockInputC8 : String :=
  "0x8af416f6" ++ String.mk (List.replicate 64 '0') ++
    String.mk (List.replicate 63 '0') ++ "1"

def lockPayloadC8 : Payload :=
  { confirmed := true, abi := [{ name := some "LockLPToken" }],
    txs := [{ input := some lockInputC8 }], id := some "c8" }

/-- A confirmed `new_token` payload whose two logs carry the same address. -/
def newTokenPayloadW : Payload :=
  { confirmed := true,
    logs := [{ address := some "0xAAA",
               topic0 := some "0x8be0079c531659141344cd1fd0a4f28419497f9722a3daafe3b4186f6b6457e0" },
             { address := some "0xAAA" }] }

namespace Worker

/-- Python truthiness of an optional surrogate id. -/
def optNatTruthy : Option Nat → Bool
  | some n => n ≠ 0
  | none => false

def optBoolTruthy : Option Bool → Bool
  | some b => b
  | none => false

/-- An audit `raw_results` object (the fields the worker reads).  A present
`raw_results` is modelled as a nonempty dict: the audit collaborator never
returns `{}`. -/
structure Holder where
  is_locked : Nat := 0
  percent : ℚ := 0

deriving DecidableEq

structure RawResults where
  owner_address : Option String := none
  lp_holders : List Holder := []
  lp_total_supply : Option ℚ := none

deriving DecidableEq

/-- `is_ownership_renounced` (processing_worker.py); `.lower()` on `None`
raises, which the function catches, returning `False`. -/
def is_ownership_renounced (owner : Option String) : Bool :=
  match owner with
  | some s => asciiLower s = "0x0000000000000000000000000000000000000000"
  | none => false

/-- `sum_locked_lp_percent` (processing_worker.py): the larger of the
holder-snapshot-derived and the transaction-derived percentage, `0` when
neither input is usable. -/
def sum_locked_lp_percent (raw : Option RawResults)
    (transformed : Option TransformedLock) : ℚ :=
  let lpHolders := match raw with
    | some r => r.lp_holders
    | none => []
  let method1 :=
    if lpHolders ≠ [] then
      (lpHolders.foldl (fun acc h => if h.is_locked = 1 then acc + h.percent else acc) 0) * 100
    else 0
  let method2 :=
    match transformed, raw with
    | some t, some r =>
      match t.amount, r.lp_total_supply with
      | some lockAmount, some totalSupply =>
        if lockAmount ≠ 0 ∧ totalSupply ≠ 0 then
          if totalSupply > 0 then lockAmount / totalSupply * 100 else 0
        else 0
      | _, _ => 0
    | _, _ => 0
  max method1 method2

/-! ### The relational store -/

structure SourceRow where
  id : Nat
  code : Option String := none

deriving DecidableEq

structure InfoRow where
  id : Nat
  website : Option String := none
  twitter : Option String := none
  telegram : Option String := none
  discord : Option String := none
  updated_at : Option Nat := none

deriving DecidableEq

structure AuditRow where
  id : Nat
  detailed_audit_results : Option String := none
  raw_results : Option RawResults := none
  updated_at : Option Nat := none

deriving DecidableEq

structure TokenRow where
  address : String
  blockchain : String
  block_number : Option Nat := none
  name : Option String := none
  symbol : Option String := none
  classification : Option String := none
  classification_certainty : Option ℚ := none
  contract_verified : Option Bool := none
  creator_address : Option String := none
  creator_percent : Option String := none
  risk_level : Option String := none
  is_scam : Option Bool := none
  buy_tax : Option String := none
  sell_tax : Option String := none
  creator_security : Option String := none
  dex_pair : Option String := none
  is_renounced : Option Bool := none
  liquidity_locked : Option ℚ := none
  source_code_id : Option Nat := none
  gpl_audit_id : Option Nat := none
  token_information_id : Option Nat := none
  updated_at : Option Nat := none

deriving DecidableEq

structure SupaDB where
  tokens : List TokenRow := []
  source_code : List SourceRow := []
  token_information : List InfoRow := []
  gpl_audit : List AuditRow := []
  nextId : Nat := 1

deriving DecidableEq

/-- A `supabase_token_data` payload dict.  The outer `Option` is key
presence (`none` = key absent, left untouched by an update); the inner
`Option` is the value, which may be `None` (SQL `NULL`).
`gpl_audit_results` mirrors the dict key read (but never written) by
`update_pair_data_in_supabase`. -/
structure TokenPatch where
  address : Option String := none
  blockchain : Option String := none
  block_number : Option (Option Nat) := none
  name : Option (Option String) := none
  symbol : Option (Option String) := none
  classification : Option (Option String) := none
  classification_certainty : Option (Option ℚ) := none
  contract_verified : Option (Option Bool) := none
  creator_address : Option (Option String) := none
  creator_percent : Option (Option String) := none
  risk_level : Option (Option String) := none
  is_scam : Option (Option Bool) := none
  buy_tax : Option (Option String) := none
  sell_tax : Option (Option String) := none
  creator_security : Option (Option String) := none
  dex_pair : Option (Option String) := none
  is_renounced : Option (Option Bool) := none
  liquidity_locked : Option (Option ℚ) := none
  updated_at : Option (Option Nat) := none
  source_code_id : Option (Option Nat) := none
  gpl_audit_id : Option (Option Nat) := none
  token_information_id : Option (Option Nat) := none
  gpl_audit_results : Option (Option String) := none

deriving DecidableEq

/-- Python truthiness of a patch entry holding a surrogate id. -/
def patchIdVal : Option (Option Nat) → Option Nat
  | some (some i) => if i ≠ 0 then some i else none
  | _ => none

/-- Python truthiness of a patch entry holding a string. -/
def patchStrTruthy : Option (Option String) → Bool
  | some (some s) => s ≠ ""
  | _ => false

/-- `UPDATE ... SET` semantics: keys present in the payload overwrite the
column (possibly with `NULL`), absent keys keep the stored value. -/
def TokenRow.applyPatch (r : TokenRow) (p : TokenPatch) : TokenRow :=
  { address := p.address.getD r.address,
    blockchain := p.blockchain.getD r.blockchain,
    block_number := p.block_number.getD r.block_number,
    name := p.name.getD r.name,
    symbol := p.symbol.getD r.symbol,
    classification := p.classification.getD r.classification,
    classification_certainty := p.classification_certainty.getD r.classification_certainty,
    contract_verified := p.contract_verified.getD r.contract_verified,
    creator_address := p.creator_address.getD r.creator_address,
    creator_percent := p.creator_percent.getD r.creator_percent,
    risk_level := p.risk_level.getD r.risk_level,
    is_scam := p.is_scam.getD r.is_scam,
    buy_tax := p.buy_tax.getD r.buy_tax,
    sell_tax := p.sell_tax.getD r.sell_tax,
    creator_security := p.creator_security.getD r.creator_security,
    dex_pair := p.dex_pair.getD r.dex_pair,
    is_renounced := p.is_renounced.getD r.is_renounced,
    liquidity_locked := p.liquidity_locked.getD r.liquidity_locked,
    source_code_id := p.source_code_id.getD r.source_code_id,
    gpl_audit_id := p.gpl_audit_id.getD r.gpl_audit_id,
    token_information_id := p.token_information_id.getD r.token_information_id,
    updated_at := p.updated_at.getD r.updated_at }

/-- `INSERT` semantics: absent keys become column defaults (`NULL`). -/
def TokenPatch.toRow (p : TokenPatch) : TokenRow :=
  { address := p.address.getD "",
    blockchain := p.blockchain.getD "",
    block_number := p.block_number.getD none,
    name := p.name.getD none,
    symbol := p.symbol.getD none,
    classification := p.classification.getD none,
    classification_certainty := p.classification_certainty.getD none,
    contract_verified := p.contract_verified.getD none,
    creator_address := p.creator_address.getD none,
    creator_percent := p.creator_percent.getD none,
    risk_level := p.risk_level.getD none,
    is_scam := p.is_scam.getD none,
    buy_tax := p.buy_tax.getD none,
    sell_tax := p.sell_tax.getD none,
    creator_security := p.creator_security.getD none,
    dex_pair := p.dex_pair.getD none,
    is_renounced := p.is_renounced.getD none,
    liquidity_locked := p.liquidity_locked.getD none,
    source_code_id := p.source_code_id.getD none,
    gpl_audit_id := p.gpl_audit_id.getD none,
    token_information_id := p.token_information_id.getD none,
    updated_at := p.updated_at.getD none }

/-- `UPDATE tokens SET ... WHERE address = a AND blockchain = b`, returning
the updated rows (the `.data` of the response) and the new table. -/
def SupaDB.updateTokens (db : SupaDB) (a b : String) (p : TokenPatch)
    : List TokenRow × SupaDB :=
  let updated := db.tokens.map (fun r =>
    if r.address = a ∧ r.blockchain = b then r.applyPatch p else r)
  (updated.filter (fun r => r.address = a ∧ r.blockchain = b),
    { db with tokens := updated })

/-- `supabase.table('source_code').upsert(...)`: no conflict key is supplied,
so the upsert inserts a fresh row and returns its surrogate id. -/
def SupaDB.upsertSource (db : SupaDB) (code : Option String) : Nat × SupaDB :=
  (db.nextId,
    { db with
      source_code := db.source_code ++ [{ id := db.nextId, code := code }],
      nextId := db.nextId + 1 })

def SupaDB.upsertInfo (db : SupaDB) (website twitter telegram discord : Option String)
    : Nat × SupaDB :=
  (db.nextId,
    { db with
      token_information := db.token_information ++
        [{ id := db.nextId, website := website, twitter := twitter,
            telegram := telegram, discord := discord }],
      nextId := db.nextId + 1 })

def SupaDB.updateInfo (db : SupaDB) (i : Nat)
    (website twitter telegram discord : Option String) (now : Nat)
    : List InfoRow × SupaDB :=
  let updated := db.token_information.map (fun r =>
    if r.id = i then
      { r with
        website := website, twitter := twitter, telegram := telegram,
        discord := discord, updated_at := some now }
    else r)
  (updated.filter (fun r => r.id = i), { db with token_information := updated })

def SupaDB.upsertAudit (db : SupaDB) (detailed : Option String)
    (raw : Option RawResults) : Nat × SupaDB :=
  (db.nextId,
    { db with
      gpl_audit := db.gpl_audit ++
        [{ id := db.nextId, detailed_audit_results := detailed, raw_results := raw }],
      nextId := db.nextId + 1 })

def SupaDB.updateAudit (db : SupaDB) (i : Nat) (detailed : Option String)
    (raw : Option RawResults) (now : Nat) : List AuditRow × SupaDB :=
  let updated := db.gpl_audit.map (fun r =>
    if r.id = i then
      { r with
        detailed_audit_results := detailed, raw_results := raw,
        updated_at := some now }
    else r)
  (updated.filter (fun r => r.id = i), { db with gpl_audit := updated })

/-! ### The worker's `token_data` dict and collaborator results -/

structure TokenData where
  chain_id : Option String := none
  block_number : Option Nat := none
  event_type : Option String := none
  event_id : Option String := none
  blockchain : Option String := none
  address : Option String := none
  dex_pair : Option String := none
  name : Option String := none
  symbol : Option String := none
  decimals : Option Nat := none
  total_supply : Option ℚ := none
  contract_verified : Option Bool := none
  source_code : Option String := none
  website : Option String := none
  twitter : Option String := none
  telegram : Option String := none
  discord : Option String := none
  classification : Option String := none
  classification_certainty : Option ℚ := none
  creator_address : Option String := none
  creator_percent : Option String := none
  creator_security : Option String := none
  risk_level : Option String := none
  is_scam : Option Bool := none
  buy_tax : Option String := none
  sell_tax : Option String := none
  raw_results : Option RawResults := none
  detailed_audit : Option String := none
  is_renounced : Option Bool := none
  locked_lp : Option ℚ := none

deriving DecidableEq

/-- `check_socials_exist` (processing_worker.py), over the worker's
`token_data` dict. -/
def check_socials_exist (td : TokenData) : Bool :=
  optStrTruthy td.twitter ∨ optStrTruthy td.telegram ∨
    optStrTruthy td.discord ∨ optStrTruthy td.website

/-- `dict.update` merge for one key: a key present in the merged dict
overwrites, an absent key keeps the old value. -/
def mergeField {α : Type} (newVal old : Option α) : Option α :=
  match newVal with
  | some v => some v
  | none => old

/-- `get_eth_contract_info` result (an ERC-20's basic fields). -/
structure BasicInfo where
  name : String
  symbol : String
  decimals : Option Nat := none
  total_supply : Option ℚ := none

deriving DecidableEq

/-- `get_contract_source_code` result. -/
structure SourceInfo where
  contract_verified : Option Bool := none
  source_code : Option String := none

deriving DecidableEq

/-- `get_token_socials` result. -/
structure Socials where
  website : Option String := none
  twitter : Option String := none
  telegram : Option String := none
  discord : Option String := none

deriving DecidableEq

/-- `get_eth_token_security_info` result. -/
structure SecInfo where
  risk_level : Option String := none
  is_scam : Option Bool := none
  buy_tax : Option String := none
  sell_tax : Option String := none
  creator_address : Option String := none
  creator_percent : Option String := none
  creator_security : Option String := none
  raw_results : Option RawResults := none
  detailed_audit : Option String := none

deriving DecidableEq

def applyBasicInfo (td : TokenData) (bi : BasicInfo) : TokenData :=
  { td with
    name := some bi.name, symbol := some bi.symbol,
    decimals := mergeField bi.decimals td.decimals,
    total_supply := mergeField bi.total_supply td.total_supply }

def applySourceInfo (td : TokenData) (si : SourceInfo) : TokenData :=
  { td with
    contract_verified := mergeField si.contract_verified td.contract_verified,
    source_code := mergeField si.source_code td.source_code }

def applySocials (td : TokenData) (s : Socials) : TokenData :=
  { td with
    website := mergeField s.website td.website,
    twitter := mergeField s.twitter td.twitter,
    telegram := mergeField s.telegram td.telegram,
    discord := mergeField s.discord td.discord }

def applySecInfo (td : TokenData) (si : SecInfo) : TokenData :=
  { td with
    risk_level := mergeField si.risk_level td.risk_level,
    is_scam := mergeField si.is_scam td.is_scam,
    buy_tax := mergeField si.buy_tax td.buy_tax,
    sell_tax := mergeField si.sell_tax td.sell_tax,
    creator_address := mergeField si.creator_address td.creator_address,
    creator_percent := mergeField si.creator_percent td.creator_percent,
    creator_security := mergeField si.creator_security td.creator_security,
    raw_results := mergeField si.raw_results td.raw_results,
    detailed_audit := mergeField si.detailed_audit td.detailed_audit }

/-! ### Persistence routines -/

/-- `is_token_renounced` (processing_worker.py): catches every exception
(including a checksum failure) and returns `False`. -/
def is_token_renounced (conv : String → String) (checksum : String → Except Err String)
    (address chainId : String) (db : SupaDB) : Bool :=
  match checksum address with
  | .error _ => false
  | .ok a =>
    match db.tokens.filter (fun r => r.address = a ∧ r.blockchain = conv chainId) with
    | [] => false
    | r :: _ => r.is_renounced = some true

/-- `store_new_token_in_supabase` (processing_worker.py).  Returns the stored
address, or `None` on any failure (the function catches all exceptions). -/
def store_new_token_in_supabase (now : Nat) (td : TokenData) (db : SupaDB)
    : Option String × SupaDB :=
  let p0 : TokenPatch :=
    { address := td.address, blockchain := td.blockchain,
      block_number := some td.block_number, name := some td.name,
      symbol := some td.symbol, classification := some td.classification,
      classification_certainty := some td.classification_certainty,
      contract_verified := some td.contract_verified,
      creator_address := some td.creator_address,
      creator_percent := some td.creator_percent,
      risk_level := some td.risk_level, is_scam := some td.is_scam,
      buy_tax := some td.buy_tax, sell_tax := some td.sell_tax,
      creator_security := some td.creator_security }
  match td.address, td.blockchain with
  | some a, some b =>
    if a = "" ∨ b = "" then (none, db)
    else
      -- fetch existing child-record ids, if the token already exists
      let p1 :=
        match db.tokens.filter (fun r => r.address = a ∧ r.blockchain = b) with
        | [] => p0
        | e :: _ =>
          { p0 with
            source_code_id :=
              if optNatTruthy e.source_code_id then some e.source_code_id else none,
            gpl_audit_id :=
              if optNatTruthy e.gpl_audit_id then some e.gpl_audit_id else none,
            token_information_id :=
              if optNatTruthy e.token_information_id then some e.token_information_id
              else none }
      -- source code row, if verified and not yet linked
      let sr :=
        if optBoolTruthy (p1.contract_verified.getD none) ∧ p1.source_code_id = none then
          let (i, db') := db.upsertSource td.source_code
          ({ p1 with source_code_id := some (some i) }, db')
        else (p1, db)
      let p2 := sr.1
      let db2 := sr.2
      -- token information row, if socials exist
      let ir :=
        if check_socials_exist td then
          match patchIdVal p2.token_information_id with
          | some i =>
            let (_, db') := db2.updateInfo i td.website td.twitter td.telegram td.discord now
            (p2, db')
          | none =>
            let (j, db') := db2.upsertInfo td.website td.twitter td.telegram td.discord
            ({ p2 with token_information_id := some (some j) }, db')
        else (p2, db2)
      let p3 := ir.1
      let db3 := ir.2
      -- audit row, if a fresh audit is present
      let ar :=
        if td.raw_results.isSome then
          match patchIdVal p3.gpl_audit_id with
          | some i =>
            let (_, db') := db3.updateAudit i td.detailed_audit td.raw_results now
            (p3, db')
          | none =>
            let (j, db') := db3.upsertAudit td.detailed_audit td.raw_results
            ({ p3 with gpl_audit_id := some (some j) }, db')
        else (p3, db3)
      let p4 := ar.1
      let db4 := ar.2
      -- INSERT, falling back to UPDATE on the 23505 unique violation
      if db4.tokens.any (fun r => decide (r.address = a ∧ r.blockchain = b)) then
        let p5 := { p4 with updated_at := some (some now) }
        match db4.updateTokens a b p5 with
        | ([], db5) => (none, db5)
        | (r :: _, db5) => (some r.address, db5)
      else
        (some (p4.toRow).address, { db4 with tokens := db4.tokens ++ [p4.toRow] })
  | _, _ => (none, db)

/-- `store_new_pair_data_in_supabase` (processing_worker.py): the insert
path for a pair whose token was not yet tracked; also forces `is_renounced`
from the store and carries pair-specific columns. -/
def store_new_pair_data_in_supabase (conv : String → String)
    (checksum : String → Except Err String) (now : Nat) (td : TokenData)
    (db : SupaDB) : Option String × SupaDB :=
  match td.address, td.chain_id with
  | some addr0, some cid =>
    let td' :=
      if is_token_renounced conv checksum addr0 cid db then
        { td with is_renounced := some true }
      else td
    let p0 : TokenPatch :=
      { address := td'.address, blockchain := td'.blockchain,
        block_number := some td'.block_number, name := some td'.name,
        symbol := some td'.symbol, classification := some td'.classification,
        classification_certainty := some td'.classification_certainty,
        contract_verified := some td'.contract_verified,
        creator_address := some td'.creator_address,
        creator_percent := some td'.creator_percent,
        risk_level := some td'.risk_level, buy_tax := some td'.buy_tax,
        sell_tax := some td'.sell_tax, dex_pair := some td'.dex_pair,
        is_renounced := some td'.is_renounced,
        liquidity_locked := some td'.locked_lp,
        creator_security := some td'.creator_security }
    let p0 := if optBoolTruthy td'.is_scam then { p0 with is_scam := some td'.is_scam } else p0
    match td'.address, td'.blockchain with
    | some a, some b =>
      if a = "" ∨ b = "" then (none, db)
      else
        let p1 :=
          match db.tokens.filter (fun r => r.address = a ∧ r.blockchain = b) with
          | [] => p0
          | e :: _ =>
            { p0 with
              source_code_id :=
                if optNatTruthy e.source_code_id then some e.source_code_id else none,
              gpl_audit_id :=
                if optNatTruthy e.gpl_audit_id then some e.gpl_audit_id else none,
              token_information_id :=
                if optNatTruthy e.token_information_id then some e.token_information_id
                else none }
        let sr :=
          if optBoolTruthy (p1.contract_verified.getD none) ∧ p1.source_code_id = none then
            let (i, db') := db.upsertSource td'.source_code
            ({ p1 with source_code_id := some (some i) }, db')
          else (p1, db)
        let p2 := sr.1
        let db2 := sr.2
        let ir :=
          if check_socials_exist td' then
            match patchIdVal p2.token_information_id with
            | some i =>
              let (_, db') := db2.updateInfo i td'.website td'.twitter td'.telegram td'.discord now
              (p2, db')
            | none =>
              let (j, db') := db2.upsertInfo td'.website td'.twitter td'.telegram td'.discord
              ({ p2 with token_information_id := some (some j) }, db')
          else (p2, db2)
        let p3 := ir.1
        let db3 := ir.2
        let ar :=
          if td'.raw_results.isSome then
            match patchIdVal p3.gpl_audit_id with
            | some i =>
              let (_, db') := db3.updateAudit i td'.detailed_audit td'.raw_results now
              (p3, db')
            | none =>
              let (j, db') := db3.upsertAudit td'.detailed_audit td'.raw_results
              ({ p3 with gpl_audit_id := some (some j) }, db')
          else (p3, db3)
        let p4 := ar.1
        let db4 := ar.2
        if db4.tokens.any (fun r => decide (r.address = a ∧ r.blockchain = b)) then
          let p5 := { p4 with updated_at := some (some now) }
          match db4.updateTokens a b p5 with
          | ([], db5) => (none, db5)
          | (r :: _, db5) => (some r.address, db5)
        else
          (some (p4.toRow).address, { db4 with tokens := db4.tokens ++ [p4.toRow] })
    | _, _ => (none, db)
  | _, _ => (none, db)

/-- `update_pair_data_in_supabase` (processing_worker.py): the merge-update
for an already-tracked token.  It has no enclosing `try`, so a missing
`address`/`chain_id` key or an update matching no rows raises to the caller.

The audit block checks `supabase_token_data.get('gpl_audit_results')` — a
key no code ever writes (`patchIdVal p.gpl_audit_results` below) — so the
"update existing audit row" branch is unreachable and a fresh `gpl_audit`
row is minted on every call that carries `raw_results`, re-linking the token
to the new row's id. -/
def update_pair_data_in_supabase (conv : String → String)
    (checksum : String → Except Err String) (now : Nat) (td : TokenData)
    (sourceCodeId gplAuditId tokenInformationId : Option Nat) (db : SupaDB)
    : Except Err (Option String) × SupaDB :=
  match td.address with
  | none => (.error "KeyError: address", db)
  | some addr0 =>
    match td.chain_id with
    | none => (.error "KeyError: chain_id", db)
    | some cid =>
      let td' :=
        if is_token_renounced conv checksum addr0 cid db then
          { td with is_renounced := some true }
        else td
      let p0 : TokenPatch :=
        { block_number := some td'.block_number,
          contract_verified := some td'.contract_verified,
          creator_percent := some td'.creator_percent,
          risk_level := some td'.risk_level, is_scam := some td'.is_scam,
          buy_tax := some td'.buy_tax, sell_tax := some td'.sell_tax,
          dex_pair := some td'.dex_pair, is_renounced := some td'.is_renounced,
          liquidity_locked := some td'.locked_lp,
          updated_at := some (some now) }
      let p1 :=
        { p0 with
          source_code_id := if optNatTruthy sourceCodeId then some sourceCodeId else none,
          gpl_audit_id := if optNatTruthy gplAuditId then some gplAuditId else none,
          token_information_id :=
            if optNatTruthy tokenInformationId then some tokenInformationId else none }
      let blockchain := conv cid
      if addr0 = "" ∨ blockchain = "" then (.ok none, db)
      else
        let sr :=
          if ¬ optNatTruthy sourceCodeId ∧ optBoolTruthy td'.contract_verified then
            let (i, db') := db.upsertSource td'.source_code
            ({ p1 with source_code_id := some (some i) }, db')
          else (p1, db)
        let p2 := sr.1
        let db2 := sr.2
        let ir :=
          if ¬ optNatTruthy tokenInformationId ∧ check_socials_exist td' then
            let (j, db') := db2.upsertInfo td'.website td'.twitter td'.telegram td'.discord
            ({ p2 with token_information_id := some (some j) }, db')
          else (p2, db2)
        let p3 := ir.1
        let db3 := ir.2
        let ar :=
          if td'.raw_results.isSome then
            if patchStrTruthy p3.gpl_audit_results then
              -- dead branch: 'gpl_audit_results' is never written
              match patchIdVal p3.gpl_audit_id with
              | some i =>
                let (_, db') := db3.updateAudit i td'.detailed_audit td'.raw_results now
                (p3, db')
              | none => (p3, db3)
            else
              let (j, db') := db3.upsertAudit td'.detailed_audit td'.raw_results
              ({ p3 with gpl_audit_id := some (some j) }, db')
          else (p3, db3)
        let p4 := ar.1
        let db4 := ar.2
        let p5 := { p4 with updated_at := some (some now) }
        match db4.updateTokens addr0 blockchain p5 with
        | ([], db5) => (.error "IndexError: token update returned no rows", db5)
        | (r :: _, db5) => (.ok (some r.address), db5)

/-- `update_renounced_status_in_supabase` (processing_worker.py): sets
`is_renounced` on the matching token; a checksum failure is logged and
re-raised; no matching row yields `None`. -/
def update_renounced_status_in_supabase (conv : String → String)
    (checksum : String → Except Err String) (tokenAddress chainId : String)
    (now : Nat) (db : SupaDB) : Except Err (Option String) × SupaDB :=
  match checksum tokenAddress with
  | .error e => (.error e, db)
  | .ok a =>
    let p : TokenPatch := { is_renounced := some (some true), updated_at := some (some now) }
    match db.updateTokens a (conv chainId) p with
    | ([], db') => (.ok none, db')
    | (r :: _, db') => (.ok (some r.address), db')

/-! ### Queues, worker state and the per-event processors -/

structure Config where
  maxRetries : Nat
  retryDelay : Nat

/-- The worker's shared mutable state: the three Redis structures, the
notification queue, the relational store and the Firestore counters. -/
structure WorkerState where
  webhook_queue : List EventData := []
  retry_queue : List (EventData × Nat) := []
  failed_events : List EventData := []
  notification_queue : List (String × TokenData) := []
  db : SupaDB := {}
  counter_total : Nat := 0
  counter_scams : Nat := 0
  counter_risky : Nat := 0

deriving DecidableEq

/-- Redis `ZADD`: update the member's score when it is already present,
insert it otherwise. -/
def zadd (q : List (EventData × Nat)) (e : EventData) (s : Nat)
    : List (EventData × Nat) :=
  if ∃ p ∈ q, p.1 = e then q.map (fun p => if p.1 = e then (e, s) else p)
  else q ++ [(e, s)]

/-- The mutation `handle_failed_event` performs on the `event_data` dict
before re-serialising it. -/
def bumpEvent (now : Nat) (err : String) (ev : EventData) : EventData :=
  { ev with
    retry_count := some (ev.retry_count.getD 0 + 1),
    last_error := some err, last_retry := some now }

/-- `TokenProcessor.handle_failed_event` (processing_worker.py): bump
`retry_count`; within budget, schedule at `now + RETRY_DELAY * 2^(retry_count-1)`
in `retry_queue`, otherwise append to the `failed_events` dead-letter list. -/
def handle_failed_event (cfg : Config) (now : Nat) (ev : EventData)
    (err : String) (st : WorkerState) : WorkerState :=
  if ev.retry_count.getD 0 + 1 ≤ cfg.maxRetries then
    { st with
      retry_queue := zadd st.retry_queue (bumpEvent now err ev)
        (now + cfg.retryDelay * 2 ^ (ev.retry_count.getD 0 + 1 - 1)) }
  else
    { st with failed_events := st.failed_events ++ [bumpEvent now err ev] }

/-- `increment_firestore_counter` (processing_worker.py); it catches its own
errors, so it never raises into the caller. -/
def increment_firestore_counter (td : TokenData) (st : WorkerState) : WorkerState :=
  let st1 := { st with counter_total := st.counter_total + 1 }
  if td.risk_level = some "High" then
    { st1 with counter_scams := st1.counter_scams + 1 }
  else if td.risk_level = some "Medium" then
    { st1 with counter_risky := st1.counter_risky + 1 }
  else st1

/-- One oracle field per collaborator call: `.error` models the call
raising (after `fetch_with_retry` exhausted its inline rate-limit budget),
`.ok` its return value.  `storeGate` models the `asyncio.to_thread`/`gather`
plumbing around a storage task failing before the store function runs —
the only way `isinstance(supabase_result, Exception)` can hold, since the
store functions catch their own exceptions. -/
structure Oracle where
  conv : String → String
  web3Init : Except Err Unit
  checksum : String → Except Err String
  contractInfo : Except Err (Option BasicInfo)
  sourceCode : Except Err (Option SourceInfo)
  socials : Except Err Socials
  securityInfo : Except Err (Option SecInfo)
  classification : Except Err (String × ℚ)
  storeGate : Except Err Unit

/-- The shared source-code re-check block (`get_contract_source_code`, then
`get_token_socials` when verified, inside one `try` whose `except` forces
`contract_verified = False`).  It appears verbatim in `process_new_token`,
both branches of `process_new_pair`, and `process_lock_lp`. -/
def sourceStep (o : Oracle) (td : TokenData) : TokenData :=
  match o.sourceCode with
  | .error _ => { td with contract_verified := some false }
  | .ok none => td
  | .ok (some si) =>
    let td' := applySourceInfo td si
    if td'.contract_verified = some true ∧ optStrTruthy td'.source_code then
      match o.socials with
      | .error _ => { td' with contract_verified := some false }
      | .ok socs => applySocials td' socs
    else td'

/-- The fresh-security-audit block shared by the existing-token branch of
`process_new_pair` (no transformed data) and by `process_lock_lp` (with the
lock transaction's transformed data): update from the audit, then read
`token_data['raw_results']` (a `KeyError` is caught by the same `try`),
recompute the renounced flag and the locked-LP percentage. -/
def securityStep (o : Oracle) (transformed : Option TransformedLock)
    (td : TokenData) : TokenData :=
  match o.securityInfo with
  | .error _ => td
  | .ok v =>
    let td' := match v with
      | some si => applySecInfo td si
      | none => td
    match td'.raw_results with
    | none => td'
    | some raw =>
      let td'' :=
        if is_ownership_renounced raw.owner_address then
          { td' with is_renounced := some true }
        else { td' with is_renounced := some false }
      { td'' with locked_lp := some (sum_locked_lp_percent (some raw) transformed) }

/-- The security/classification block of the new-token branch of
`process_new_pair`: one `try` covering the audit update, the
classification, and — when the audit carries `raw_results` — the renounced
flag (guarded by the truthiness of `owner_address`) and the locked-LP
percentage. -/
def newPairSecurityStep (o : Oracle) (td : TokenData) : TokenData :=
  match o.securityInfo with
  | .error _ => td
  | .ok none => td
  | .ok (some si) =>
    let td1 := applySecInfo td si
    match o.classification with
    | .error _ => td1
    | .ok (c, cert) =>
      let td2 := { td1 with classification := some c, classification_certainty := some cert }
      match si.raw_results with
      | some raw =>
        let td3 :=
          { td2 with
            is_renounced := some
              (if optStrTruthy raw.owner_address then
                is_ownership_renounced raw.owner_address
              else false) }
        { td3 with locked_lp := some (sum_locked_lp_percent si.raw_results none) }
      | none => td2

/-- `TokenProcessor.process_new_token` (processing_worker.py).  Missing
mandatory keys of `event_data` raise `KeyError`, reaching the outer `except`,
which routes to `handle_failed_event` and returns `False`.  A `None` result
of `store_new_token_in_supabase` is not checked: processing continues. -/
def process_new_token (cfg : Config) (o : Oracle) (now : Nat) (ev : EventData)
    (st : WorkerState) : Bool × WorkerState :=
  match ev.chain_id with
  | none => (false, handle_failed_event cfg now ev "KeyError: chain_id" st)
  | some cid =>
  match ev.block_number with
  | none => (false, handle_failed_event cfg now ev "KeyError: block_number" st)
  | some bn =>
  match ev.event_id with
  | none => (false, handle_failed_event cfg now ev "KeyError: event_id" st)
  | some eid =>
  match o.web3Init with
  | .error e => (false, handle_failed_event cfg now ev e st)
  | .ok _ =>
  match ev.address with
  | none => (false, handle_failed_event cfg now ev "KeyError: address" st)
  | some rawAddr =>
  match o.checksum rawAddr with
  | .error e => (false, handle_failed_event cfg now ev e st)
  | .ok addr =>
  match o.contractInfo with
  | .error e => (false, handle_failed_event cfg now ev e st)
  | .ok none => (true, st)
  | .ok (some bi) =>
    let td0 : TokenData :=
      { chain_id := some cid, block_number := some bn,
        event_type := some "new_token", event_id := some eid,
        blockchain := some (o.conv cid), address := some addr }
    let td1 := applyBasicInfo td0 bi
    let td2 := sourceStep o td1
    let td3 :=
      match o.securityInfo with
      | .error _ => td2
      | .ok none => td2
      | .ok (some si) => applySecInfo td2 si
    let td4 :=
      match o.classification with
      | .error _ => td3
      | .ok (c, cert) =>
        { td3 with classification := some c, classification_certainty := some cert }
    let st1 := increment_firestore_counter td4 st
    match o.storeGate with
    | .error e => (false, handle_failed_event cfg now ev e st1)
    | .ok _ =>
      let res := store_new_token_in_supabase now td4 st1.db
      let st2 := { st1 with db := res.2 }
      if td4.is_scam = some true then (true, st2)
      else
        (true, { st2 with
          notification_queue := st2.notification_queue ++ [("new_token", td4)] })

/-- `TokenProcessor.process_new_pair` (processing_worker.py). -/
def process_new_pair (cfg : Config) (o : Oracle) (now : Nat) (ev : EventData)
    (st : WorkerState) : Bool × WorkerState :=
  match ev.chain_id with
  | none => (false, handle_failed_event cfg now ev "KeyError: chain_id" st)
  | some cid =>
  match ev.block_number with
  | none => (false, handle_failed_event cfg now ev "KeyError: block_number" st)
  | some bn =>
  match ev.event_id with
  | none => (false, handle_failed_event cfg now ev "KeyError: event_id" st)
  | some eid =>
  match ev.pair_address with
  | none => (false, handle_failed_event cfg now ev "KeyError: pair_address" st)
  | some pairAddr =>
  match o.web3Init with
  | .error e => (false, handle_failed_event cfg now ev e st)
  | .ok _ =>
  match ev.token_address with
  | none => (false, handle_failed_event cfg now ev "KeyError: token_address" st)
  | some ta =>
  match o.checksum ta with
  | .error e => (false, handle_failed_event cfg now ev e st)
  | .ok addr =>
    let blockchain := o.conv cid
    let td0 : TokenData :=
      { chain_id := some cid, block_number := some bn,
        event_type := some "new_pair", event_id := some eid,
        dex_pair := some pairAddr, blockchain := some blockchain,
        address := some addr }
    match st.db.tokens.filter (fun r => r.address = addr ∧ r.blockchain = blockchain) with
    | row :: _ =>
      -- the token exists
      if row.is_scam = some true then (true, st)
      else
        let td1 :=
          { td0 with
            name := row.name, symbol := row.symbol,
            classification := row.classification,
            classification_certainty := row.classification_certainty,
            contract_verified := row.contract_verified }
        let td2 := if ¬ optNatTruthy row.source_code_id then sourceStep o td1 else td1
        let td3 := securityStep o none td2
        match update_pair_data_in_supabase o.conv o.checksum now td3
            row.source_code_id row.gpl_audit_id row.token_information_id st.db with
        | (.error e, db') =>
          (false, handle_failed_event cfg now ev e { st with db := db' })
        | (.ok none, db') =>
          (false, handle_failed_event cfg now ev "Failed to update pair data"
            { st with db := db' })
        | (.ok (some r), db') =>
          if r = "" then
            (false, handle_failed_event cfg now ev "Failed to update pair data"
              { st with db := db' })
          else
            let st' := { st with db := db' }
            if td3.is_scam = some true then (true, st')
            else
              (true, { st' with
                notification_queue := st'.notification_queue ++ [("new_pair", td3)] })
    | [] =>
      -- process as a new token
      match o.contractInfo with
      | .error e => (false, handle_failed_event cfg now ev e st)
      | .ok none => (true, st)
      | .ok (some bi) =>
        let td1 := applyBasicInfo td0 bi
        let td2 := sourceStep o td1
        let td3 := newPairSecurityStep o td2
        let st1 := increment_firestore_counter td3 st
        match o.storeGate with
        | .error e => (false, handle_failed_event cfg now ev e st1)
        | .ok _ =>
          match store_new_pair_data_in_supabase o.conv o.checksum now td3 st1.db with
          | (none, db') =>
            (false, handle_failed_event cfg now ev "Failed to store new pair data"
              { st1 with db := db' })
          | (some r, db') =>
            if r = "" then
              (false, handle_failed_event cfg now ev "Failed to store new pair data"
                { st1 with db := db' })
            else
              let st2 := { st1 with db := db' }
              if td3.is_scam = some true then (true, st2)
              else
                (true, { st2 with
                  notification_queue := st2.notification_queue ++ [("new_pair", td3)] })

/-- `transformed_data.get('lp_token')` over
`event_data.get('transformed_data', {})`. -/
def lpTokenOf (ev : EventData) : Option String :=
  match ev.transformed_data with
  | some t => t.lp_token
  | none => none

/-- `TokenProcessor.process_lock_lp` (processing_worker.py).  A missing or
blank LP token address returns `False` directly — without touching the
retry queue or the dead-letter list. -/
def process_lock_lp (cfg : Config) (o : Oracle) (now : Nat) (ev : EventData)
    (st : WorkerState) : Bool × WorkerState :=
  match lpTokenOf ev with
  | none => (false, st)
  | some lp =>
    if lp = "" then (false, st)
    else
      match ev.chain_id with
      | none => (false, handle_failed_event cfg now ev "KeyError: chain_id" st)
      | some cid =>
        let blockchain := o.conv cid
        match st.db.tokens.filter (fun r => r.dex_pair = some lp ∧ r.blockchain = blockchain) with
        | [] => (true, st)
        | row :: _ =>
          if row.is_scam = some true then (true, st)
          else
            match ev.block_number with
            | none => (false, handle_failed_event cfg now ev "KeyError: block_number" st)
            | some bn =>
            match ev.event_id with
            | none => (false, handle_failed_event cfg now ev "KeyError: event_id" st)
            | some eid =>
              let td0 : TokenData :=
                { chain_id := some cid, block_number := some bn,
                  event_type := some "lock_lp", event_id := some eid,
                  dex_pair := some lp, blockchain := some blockchain,
                  address := some row.address, name := row.name,
                  symbol := row.symbol, classification := row.classification,
                  classification_certainty := row.classification_certainty,
                  contract_verified := row.contract_verified }
              let td1 := if ¬ optNatTruthy row.source_code_id then sourceStep o td0 else td0
              let td2 := securityStep o ev.transformed_data td1
              match update_pair_data_in_supabase o.conv o.checksum now td2
                  row.source_code_id row.gpl_audit_id row.token_information_id st.db with
              | (.error e, db') =>
                (false, handle_failed_event cfg now ev e { st with db := db' })
              | (.ok none, db') =>
                (false, handle_failed_event cfg now ev "Failed to update pair data"
                  { st with db := db' })
              | (.ok (some r), db') =>
                if r = "" then
                  (false, handle_failed_event cfg now ev "Failed to update pair data"
                    { st with db := db' })
                else
                  let st' := { st with db := db' }
                  if td2.is_scam = some true then (true, st')
                  else
                    (true, { st' with
                      notification_queue := st'.notification_queue ++ [("lock_lp", td2)] })

/-- `TokenProcessor.process_ownership_renounced` (processing_worker.py). -/
def process_ownership_renounced (cfg : Config) (o : Oracle) (now : Nat)
    (ev : EventData) (st : WorkerState) : Bool × WorkerState :=
  match ev.token_address with
  | none => (false, handle_failed_event cfg now ev "KeyError: token_address" st)
  | some ta =>
  match ev.chain_id with
  | none => (false, handle_failed_event cfg now ev "KeyError: chain_id" st)
  | some cid =>
    match update_renounced_status_in_supabase o.conv o.checksum ta cid now st.db with
    | (.error e, db') =>
      (false, handle_failed_event cfg now ev e { st with db := db' })
    | (.ok none, db') => (true, { st with db := db' })
    | (.ok (some _), db') => (true, { st with db := db' })

/-- `TokenProcessor.process_webhook` (processing_worker.py): dispatch on
`event_data.get('event_type')`; an unknown type is logged and returns
`False` with no retry or dead-letter entry. -/
def process_webhook (cfg : Config) (o : Oracle) (now : Nat) (ev : EventData)
    (st : WorkerState) : Bool × WorkerState :=
  match ev.event_type with
  | some "new_token" => process_new_token cfg o now ev st
  | some "new_pair" => process_new_pair cfg o now ev st
  | some "lock_lp" => process_lock_lp cfg o now ev st
  | some "ownership_renounced" => process_ownership_renounced cfg o now ev st
  | _ => (false, st)

/-- `TokenProcessor.process_retry_queue` (processing_worker.py): read the
due retry entries (`ZRANGEBYSCORE 0 now`), delete that same score range, and
process each entry directly through `process_webhook`. -/
def process_retry_queue (cfg : Config) (o : Oracle) (now : Nat)
    (st : WorkerState) : WorkerState :=
  let ready := (st.retry_queue.filter (fun p => p.2 ≤ now)).map Prod.fst
  if ready = [] then st
  else
    let st1 := { st with retry_queue := st.retry_queue.filter (fun p => ¬ p.2 ≤ now) }
    ready.foldl (fun s e => (process_webhook cfg o now e s).2) st1

/-- A failing job is "routed to the retry/backoff contract" when an updated
copy of it (same `event_id`, `retry_count` bumped by one) is a member of the
retry queue or of the dead-letter list afterwards. -/
def routedTo (st' : WorkerState) (ev : EventData) : Prop :=
  ∃ e', e'.event_id = ev.event_id ∧
    e'.retry_count = some (ev.retry_count.getD 0 + 1) ∧
    ((∃ s, (e', s) ∈ st'.retry_queue) ∨ e' ∈ st'.failed_events)

/-- The queue effect of one processor run: the webhook queue is untouched
and either both failure queues are untouched (and a failure result implies
the processor's malformed-payload carve-out), or the result is a failure
whose failure queues are exactly those of a `handle_failed_event` call on
the incoming event. -/
def processEffect (cfg : Config) (now : Nat) (ev : EventData)
    (st : WorkerState) (carve : Prop) (r : Bool × WorkerState) : Prop :=
  r.2.webhook_queue = st.webhook_queue ∧
  ((r.2.retry_queue = st.retry_queue ∧ r.2.failed_events = st.failed_events ∧
      (r.1 = false → carve)) ∨
   (r.1 = false ∧ ∃ err,
      r.2.retry_queue = (handle_failed_event cfg now ev err st).retry_queue ∧
      r.2.failed_events = (handle_failed_event cfg now ev err st).failed_events))

/-- The malformed-payload carve-out of `process_lock_lp`. -/
def lockCarve (ev : EventData) : Prop :=
  lpTokenOf ev = none ∨ lpTokenOf ev = some ""

/-- The malformed-payload carve-out of `process_webhook`: an event type
outside the four known ones, or a `lock_lp` job without an LP token. -/
def webhookCarve (ev : EventData) : Prop :=
  (ev.event_type ≠ some "new_token" ∧ ev.event_type ≠ some "new_pair" ∧
    ev.event_type ≠ some "lock_lp" ∧ ev.event_type ≠ some "ownership_renounced") ∨
  (ev.event_type = some "lock_lp" ∧ lockCarve ev)

/-- `nthFailure k` is the job together with the queue state after its `k`-th
consecutive failure: the stored (serialised) job of step `k` is the bumped
event, which is what a re-delivery would carry into the next failure. -/
def nthFailure (cfg : Config) (now : Nat) (err : String) (ev : EventData)
    (st : WorkerState) : Nat → EventData × WorkerState
  | 0 => (ev, st)
  | k + 1 =>
    let p := nthFailure cfg now err ev st k
    (bumpEvent now err p.1, handle_failed_event cfg now p.1 err p.2)

end Worker

/-- A sample configuration with the spec's `MAX_RETRIES = 3` and a base
delay of 5 seconds (`config.settings` is not part of the sources; every
theorem below is parametric in the configuration). -/
def cfg0 : Worker.Config := { maxRetries := 3, retryDelay := 5 }

/-- A benign oracle: every collaborator call succeeds. -/
def o0 : Worker.Oracle :=
  { conv := fun _ => "ethereum", web3Init := .ok (),
    checksum := fun s => .ok s, contractInfo := .ok none,
    sourceCode := .ok none, socials := .ok {}, securityInfo := .ok none,
    classification := .ok ("", 0), storeGate := .ok () }

/-- An oracle whose address-checksum collaborator raises. -/
def oChecksumFail : Worker.Oracle :=
  { o0 with checksum := fun _ => .error "Exception: bad address" }

/-- A `lock_lp` job without an LP token address in its transformed data. -/
def lockEvC1 : EventData :=
  { event_id := some "e1", event_type := some "lock_lp",
    chain_id := some "0x1", retry_count := some 0 }

/-- An `ownership_renounced` job whose processing fails at the checksum
collaborator. -/
def ownEvC1 : EventData :=
  { event_id := some "e2", event_type := some "ownership_renounced",
    token_address := some "0xT", chain_id := some "0x1", retry_count := some 0 }

/-- A fresh gateway-style job with `retry_count = 0`. -/
def evC2 : EventData := { event_id := some "e3", retry_count := some 0 }

/-- A token row already linked to audit row 7, and a fresh audit payload. -/
def rowC3 : Worker.TokenRow :=
  { address := "0xT", blockchain := "ethereum", gpl_audit_id := some 7 }

def dbC3 : Worker.SupaDB :=
  { tokens := [rowC3], gpl_audit := [{ id := 7 }], nextId := 100 }

def tdC3 : Worker.TokenData :=
  { address := some "0xT", chain_id := some "0x1",
    raw_results := some { owner_address := some "0xowner" } }

/-- The merge-update of `tdC3` against `dbC3`, passing the existing audit id
7 — exactly how `process_new_pair`/`process_lock_lp` call it. -/
def updC3 : Except Err (Option String) × Worker.SupaDB :=
  Worker.update_pair_data_in_supabase (fun _ => "ethereum") (fun s => .ok s) 999
    tdC3 none (some 7) none dbC3

/-- A due retry entry: an `ownership_renounced` job scheduled at 5. -/
def ownEvC5 : EventData :=
  { event_id := some "r1", event_type := some "ownership_renounced",
    token_address := some "0xT", chain_id := some "0x1", retry_count := some 1 }

def retryStC5 : Worker.WorkerState := { retry_queue := [(ownEvC5, 5)] }

/-- The C9 witness fixtures: a store holding the scam-flagged token. -/
def evC9 : EventData :=
  { event_id := some "e9", event_type := some "new_pair",
    chain_id := some "0x1", block_number := some 5,
    pair_address := some "0xP", token_address := some "0xT" }

def rowC9 : Worker.TokenRow :=
  { address := "0xT", blockchain := "ethereum", is_scam := some true }

def stC9 : Worker.WorkerState := { db := { tokens := [rowC9] } }

end TokenAlert

namespace TokenAlert

lemma mem_keccak256_lt {m : List Nat} : ∀ b ∈ keccak256 m, b < 256 := by
  intro b hb
  unfold keccak256 at hb
  simp only [List.mem_map, List.mem_range] at hb
  obtain ⟨i, -, rfl⟩ := hb
  exact Nat.mod_lt _ (by norm_num)

lemma keccak256_ne_nil (m : List Nat) : keccak256 m ≠ [] := by
  unfold keccak256
  simp [List.range_succ]

lemma hexDigitChar_ne_x {n : Nat} (h : n < 16) : hexDigitChar n ≠ 'x' := by
  interval_cases n <;> decide

lemma strip0x_bytesToHex {bs : List Nat} (h : ∀ b ∈ bs, b < 256) :
    strip0x (bytesToHex bs) = bytesToHex bs := by
  unfold strip0x
  split
  · rename_i hs
    exfalso
    cases bs with
    | nil => simp [bytesToHex, pyStartsWith] at hs
    | cons b t =>
      have hb : b % 16 < 16 := Nat.mod_lt _ (by norm_num)
      unfold pyStartsWith bytesToHex at hs
      simp only [List.foldr_cons, decide_eq_true_eq] at hs
      have : hexDigitChar (b % 16) = 'x' := by
        have := congrArg (fun l => l.get? 1) hs
        simpa using this
      exact hexDigitChar_ne_x hb this
  · rfl

lemma bytesToHex_ne_empty {bs : List Nat} (h : bs ≠ []) : bytesToHex bs ≠ "" := by
  cases bs with
  | nil => exact absurd rfl h
  | cons b t =>
    unfold bytesToHex
    intro hc
    have hdata := congrArg String.data hc
    simp at hdata

lemma strip0x_keccakHexDigest (m : List Nat) :
    strip0x (keccakHexDigest m) = bytesToHex (keccak256 m) := by
  unfold keccakHexDigest strip0x
  have hst : pyStartsWith ("0x" ++ bytesToHex (keccak256 m)) "0x" = true := by
    unfold pyStartsWith
    cases hdata : (bytesToHex (keccak256 m)).data <;> simp [hdata]
  rw [if_pos hst]
  unfold pyDrop
  simp

/-- C6 counterexample: for body `"a"` and secret `"s"`, the header value that is
the correct keccak-256 digest of `body || secret` written in UPPERCASE hex
(with a `0x` prefix) satisfies the claim's acceptance condition — equal to the
digest case-insensitively after `0x`-stripping — yet `verify_moralis_signature`
rejects it: the code compares the hex strings case-sensitively. -/
theorem C6_counterexample :
    specAcceptsSignature ("0x" ++ asciiUpper (bytesToHex (keccak256 [97, 115])))
      "s" [97] = true ∧
    verify_moralis_signature false
      (some ("0x" ++ asciiUpper (bytesToHex (keccak256 [97, 115]))))
      (some "s") (some [97]) = false := by
  constructor <;> decide

/-- C6 (amended): with signature verification enabled and a nonempty header,
secret and ASCII-decodable data, `verify_moralis_signature` accepts exactly
when the provided header value, after stripping any `0x` prefix, equals the
lowercase hex keccak-256 digest of `body || secret` — compared
case-sensitively; and whenever a body mutation changes the digest, the
signature computed over the original body is accepted for the original body
and rejected for the mutated one. -/
theorem C6_amended_claim (p sec : String) (b b' : List Nat)
    (hp : p ≠ "") (hs : sec ≠ "")
    (hb : (b ++ strBytes sec).all (· < 128) = true)
    (hb' : (b' ++ strBytes sec).all (· < 128) = true) :
    (verify_moralis_signature false (some p) (some sec) (some b) = true ↔
      strip0x p = bytesToHex (keccak256 (b ++ strBytes sec))) ∧
    (keccakHexDigest (b' ++ strBytes sec) ≠ keccakHexDigest (b ++ strBytes sec) →
      verify_moralis_signature false
        (some (strip0x (keccakHexDigest (b ++ strBytes sec))))
        (some sec) (some b) = true ∧
      verify_moralis_signature false
        (some (strip0x (keccakHexDigest (b ++ strBytes sec))))
        (some sec) (some b') = false) := by
  have hrun : ∀ (q : String) (body : List Nat),
      q ≠ "" → (body ++ strBytes sec).all (· < 128) = true →
      verify_moralis_signature false (some q) (some sec) (some body) =
        decide (strip0x q = strip0x (keccakHexDigest (body ++ strBytes sec))) := by
    intro q body hq hbody
    unfold verify_moralis_signature
    simp [hq, hs, hbody]
  constructor
  · rw [hrun p b hp hb, strip0x_keccakHexDigest]
    exact decide_eq_true_iff
  · intro hne
    have hpne : strip0x (keccakHexDigest (b ++ strBytes sec)) ≠ "" := by
      rw [strip0x_keccakHexDigest]
      exact bytesToHex_ne_empty (keccak256_ne_nil _)
    constructor
    · rw [hrun _ b hpne hb, strip0x_keccakHexDigest,
        strip0x_bytesToHex mem_keccak256_lt]
      simp
    · rw [hrun _ b' hpne hb', strip0x_keccakHexDigest, strip0x_keccakHexDigest,
        strip0x_bytesToHex mem_keccak256_lt]
      simp only [decide_eq_false_iff_not]
      intro hcontra
      apply hne
      unfold keccakHexDigest
      rw [← hcontra]

/-- Witness for C6: the amended theorem applied to body `"a"`, mutated body
`"b"` and secret `"s"`, whose digests differ. -/
theorem C6_amended_witness :
    verify_moralis_signature false
      (some (strip0x (keccakHexDigest ([97] ++ strBytes "s"))))
      (some "s") (some [98]) = false :=
  ((C6_amended_claim "z" "s" [97] [98] (by decide) (by decide) (by decide)
    (by decide)).2 (by decide)).2

lemma risk_level_mapping_nonneg {s : String} {v : Int}
    (h : risk_level_mapping s = some v) : 0 ≤ v := by
  unfold risk_level_mapping at h
  split at h <;> simp_all <;> omega

lemma neg_one_le_riskValue (s : String) : -1 ≤ riskValue s := by
  unfold riskValue
  cases h : risk_level_mapping (pyCapitalize s) with
  | none => simp
  | some v =>
    simp only [Option.getD_some]
    exact le_trans (by norm_num) (risk_level_mapping_nonneg h)

/-- C4: against the empty filter record, a snapshot whose classification is
`"Memecoins"` is rejected by `apply_filters` — the classification check
compares the blank filter value `''` against the snapshot's classification
with no blank-means-no-constraint guard (every sibling check has one), so an
empty filter set does not pass every snapshot. -/
theorem C4_empty_filters_eval :
    apply_filters (fun _ => none) emptyFilters
      { classification := some "Memecoins" } = false ∧
    apply_filters (fun _ => none) emptyFilters
      { classification := some "" } = true := by
  constructor <;> decide

/-- C10: whenever the snapshot's risk level is absent or not one of
Safe/Low/Medium/High (so `risk_level_mapping` knows no ordinal for it), it is
mapped to `-1`; the risk-ceiling check of `apply_filters` then passes for
every filter value, and the outcome of `apply_filters` is independent of the
risk-ceiling filter. -/
theorem C10_unknown_risk_passes (parse : String → Option ℚ) (f : Filters)
    (m : MessageData)
    (h : risk_level_mapping (pyCapitalize (asciiLower (m.risk_level.getD ""))) = none) :
    riskValue (asciiLower (m.risk_level.getD "")) = -1 ∧
    (∀ fr : String, riskExcluded fr (asciiLower (m.risk_level.getD "")) = false) ∧
    apply_filters parse f m = apply_filters parse { f with risk_level := none } m := by
  have h1 : riskValue (asciiLower (m.risk_level.getD "")) = -1 := by
    unfold riskValue
    rw [h]
    rfl
  have h2 : ∀ fr : String, riskExcluded fr (asciiLower (m.risk_level.getD "")) = false := by
    intro fr
    unfold riskExcluded
    rw [h1]
    have := neg_one_le_riskValue fr
    simp only [decide_eq_false_iff_not, not_and]
    intro _
    omega
  refine ⟨h1, h2, ?_⟩
  simp only [apply_filters, h2]
  rfl

/-- Witness for C10: a filter with risk ceiling "High" against a snapshot with
the unknown risk level "weird". -/
theorem C10_witness :
    riskValue (asciiLower ((({ risk_level := some "weird" } : MessageData)).risk_level.getD "")) = -1 ∧
    (∀ fr : String,
      riskExcluded fr (asciiLower ((({ risk_level := some "weird" } : MessageData)).risk_level.getD "")) = false) ∧
    apply_filters (fun _ => none) { risk_level := some "High" }
        { risk_level := some "weird" } =
      apply_filters (fun _ => none)
        { ({ risk_level := some "High" } : Filters) with risk_level := none }
        { risk_level := some "weird" } :=
  C10_unknown_risk_passes (fun _ => none) { risk_level := some "High" }
    { risk_level := some "weird" } (by decide)

lemma mem_dedupAux {l seen : List String} {a : String} :
    a ∈ dedupAux l seen ↔ a ∈ l ∧ a ∉ seen := by
  induction l generalizing seen with
  | nil => simp [dedupAux]
  | cons b t ih =>
    unfold dedupAux
    by_cases hb : b ∈ seen
    · rw [if_pos hb, ih]
      constructor
      · rintro ⟨ht, hs⟩
        exact ⟨List.mem_cons_of_mem _ ht, hs⟩
      · rintro ⟨hbt, hs⟩
        rcases List.mem_cons.1 hbt with rfl | ht
        · exact absurd hb hs
        · exact ⟨ht, hs⟩
    · rw [if_neg hb]
      simp only [List.mem_cons, ih]
      constructor
      · rintro (rfl | ⟨ht, hs⟩)
        · exact ⟨Or.inl rfl, hb⟩
        · exact ⟨Or.inr ht, fun hc => hs (Or.inr hc)⟩
      · rintro ⟨rfl | ht, hs⟩
        · exact Or.inl rfl
        · by_cases hab : a = b
          · exact Or.inl hab
          · exact Or.inr ⟨ht, by simp [List.mem_cons, hab, hs]⟩

lemma nodup_dedupAux (l seen : List String) : (dedupAux l seen).Nodup := by
  induction l generalizing seen with
  | nil => simp [dedupAux]
  | cons b t ih =>
    unfold dedupAux
    split
    · exact ih _
    · refine List.nodup_cons.2 ⟨fun hc => ?_, ih _⟩
      exact (mem_dedupAux.1 hc).2 (List.mem_cons_self _ _)

lemma nodup_extract_addresses (logs : List LogEntry) :
    (extract_addresses_from_logs logs).Nodup := nodup_dedupAux _ _

lemma mem_extract_addresses {logs : List LogEntry} {a : String} :
    a ∈ extract_addresses_from_logs logs ↔
      ∃ l ∈ logs, l.address = some a ∧ a ≠ "" := by
  unfold extract_addresses_from_logs dedupKeepFirst
  rw [mem_dedupAux]
  simp only [List.mem_filterMap, List.not_mem_nil, not_false_iff, and_true]
  constructor
  · rintro ⟨l, hl, hf⟩
    refine ⟨l, hl, ?_⟩
    cases ha : l.address with
    | none => simp [ha] at hf
    | some x =>
      rw [ha] at hf
      by_cases hx : x = "" <;> simp [hx] at hf
      subst hf
      exact ⟨rfl, hx⟩
  · rintro ⟨l, hl, ha, hne⟩
    exact ⟨l, hl, by simp [ha, hne]⟩

/-- C7 counterexample: a request whose signature verification passes but whose
body fails JSON parsing is answered with HTTP 500 (the handler's `except`
re-raises `HTTPException(500)`), not a 2xx. -/
theorem C7_counterexample :
    (gateway_process sampleGatewayConfig some none "evt" true
      (.error "JSONDecodeError: invalid body") []).1.status = 500 := by decide

/-- C7 (amended): a failed signature check returns the generic 200 "Nice try"
response with nothing enqueued; after a passing signature check, every path on
which the handler raises no exception (the body parses to a truthy payload and
classification does not raise) resolves to a 2xx, while a raising path —
unparsable body, falsy body, or a classification error — is answered with
HTTP 500. -/
theorem C7_amended_claim (cfg : GatewayConfig)
    (checksum : String → Option String) (pairLookup : Option (String × String))
    (defaultId : String) (body : Except Err (Option Payload))
    (q : List EventData) :
    (gateway_process cfg checksum pairLookup defaultId false body q =
      ({ status := 200, message := "Nice try" }, q)) ∧
    (∀ d t, body = .ok (some d) → get_event_type cfg d = .ok t →
      (gateway_process cfg checksum pairLookup defaultId true body q).1.status = 200 ∨
      (gateway_process cfg checksum pairLookup defaultId true body q).1.status = 202) ∧
    (∀ e, body = .error e →
      (gateway_process cfg checksum pairLookup defaultId true body q).1.status = 500) ∧
    (body = .ok none →
      (gateway_process cfg checksum pairLookup defaultId true body q).1.status = 500) ∧
    (∀ d e, body = .ok (some d) → is_confirmed d = true →
      get_event_type cfg d = .error e →
      (gateway_process cfg checksum pairLookup defaultId true body q).1.status = 500) := by
  refine ⟨by simp [gateway_process], ?_, ?_, ?_, ?_⟩
  · intro d t hb ht
    subst hb
    simp only [gateway_process, ht]
    by_cases hc : is_confirmed d <;> simp only [hc]
    · repeat' split
      all_goals simp
    · simp
  · intro e hb
    subst hb
    simp [gateway_process]
  · intro hb
    subst hb
    simp [gateway_process]
  · intro d e hb hconf herr
    subst hb
    simp [gateway_process, hconf, herr]

/-- Witness for C7: a confirmed payload with no logs classifies `unknown` and
is acknowledged with a 2xx. -/
theorem C7_amended_witness :
    (gateway_process sampleGatewayConfig some none "evt" true
      (.ok (some { confirmed := true })) []).1.status = 200 ∨
    (gateway_process sampleGatewayConfig some none "evt" true
      (.ok (some { confirmed := true })) []).1.status = 202 :=
  (C7_amended_claim sampleGatewayConfig some none "evt"
    (.ok (some { confirmed := true })) []).2.1 { confirmed := true } "unknown"
    rfl (by decide)

/-- C8 counterexample: a confirmed payload that classifies as `lock_lp`
(nonzero amount word) but whose input is too short for
`decode_lock_lp_input` to read an unlock time; the gateway acknowledges it
with 200 "Failed to transform LP lock data" and enqueues zero jobs, not
exactly one. -/
theorem C8_counterexample :
    get_event_type sampleGatewayConfig lockPayloadC8 = .ok "lock_lp" ∧
    gateway_process sampleGatewayConfig some none "evt" true
        (.ok (some lockPayloadC8)) [] =
      ({ status := 200, message := "Failed to transform LP lock data" }, []) := by
  constructor <;> decide

/-- C8 (amended): for a confirmed payload, `new_token` and
`ownership_renounced` enqueue exactly one job per distinct address appearing
across the logs (the extracted list is duplicate-free and holds exactly the
truthy log addresses), `new_pair` enqueues exactly one job, and `lock_lp`
enqueues exactly one job when the lock input decodes — and zero jobs, with a
benign 200, when decoding fails. -/
theorem C8_amended_claim (cfg : GatewayConfig)
    (checksum : String → Option String) (pairLookup : Option (String × String))
    (defaultId : String) (d : Payload) (t : String) (q : List EventData)
    (hconf : is_confirmed d = true)
    (ht : get_event_type cfg d = .ok t) :
    (t = "new_token" →
      (gateway_process cfg checksum pairLookup defaultId true (.ok (some d)) q).2 =
        q ++ (extract_addresses_from_logs d.logs).map (mkNewTokenJob d defaultId)) ∧
    (t = "ownership_renounced" →
      (gateway_process cfg checksum pairLookup defaultId true (.ok (some d)) q).2 =
        q ++ (extract_addresses_from_logs d.logs).map (mkOwnershipJob d defaultId)) ∧
    (t = "new_pair" →
      (gateway_process cfg checksum pairLookup defaultId true (.ok (some d)) q).2 =
        q ++ [mkNewPairJob d defaultId pairLookup]) ∧
    (t = "lock_lp" →
      (∀ bd, transform_lock_lp_data checksum d = some bd →
        (gateway_process cfg checksum pairLookup defaultId true (.ok (some d)) q).2 =
          q ++ [mkLockJob d defaultId bd]) ∧
      (transform_lock_lp_data checksum d = none →
        (gateway_process cfg checksum pairLookup defaultId true (.ok (some d)) q).2 = q ∧
        (gateway_process cfg checksum pairLookup defaultId true (.ok (some d)) q).1.status = 200)) ∧
    (extract_addresses_from_logs d.logs).Nodup ∧
    (∀ a, a ∈ extract_addresses_from_logs d.logs ↔
      ∃ l ∈ d.logs, l.address = some a ∧ a ≠ "") := by
  refine ⟨?_, ?_, ?_, ?_, nodup_extract_addresses _, fun a => mem_extract_addresses⟩
  · rintro rfl
    simp only [gateway_process, ht, hconf]
    by_cases he : extract_addresses_from_logs d.logs = [] <;> simp [he]
  · rintro rfl
    simp only [gateway_process, ht, hconf]
    by_cases he : extract_addresses_from_logs d.logs = [] <;> simp [he]
  · rintro rfl
    simp [gateway_process, ht, hconf]
  · rintro rfl
    constructor
    · intro bd hbd
      simp [gateway_process, ht, hconf, hbd]
    · intro hbd
      constructor <;> simp [gateway_process, ht, hconf, hbd]

/-- Witness for C8: a confirmed `new_token` payload with two logs for the same
address yields exactly one job for that one distinct address. -/
theorem C8_amended_witness :
    (gateway_process sampleGatewayConfig some none "evt" true
      (.ok (some newTokenPayloadW)) []).2 =
      [] ++ (extract_addresses_from_logs newTokenPayloadW.logs).map
        (mkNewTokenJob newTokenPayloadW "evt") :=
  (C8_amended_claim sampleGatewayConfig some none "evt" newTokenPayloadW
    "new_token" [] (by decide) (by decide)).1 rfl

namespace Worker

lemma zadd_self_mem (q : List (EventData × Nat)) (e : EventData) (s : Nat) :
    (e, s) ∈ zadd q e s := by
  unfold zadd
  split
  · rename_i h
    obtain ⟨p, hp, hpe⟩ := h
    exact List.mem_map.2 ⟨p, hp, by simp [hpe]⟩
  · simp

lemma zadd_mem_cases {q : List (EventData × Nat)} {e : EventData} {s : Nat}
    {p : EventData × Nat} (h : p ∈ zadd q e s) : p ∈ q ∨ p.2 = s := by
  unfold zadd at h
  split at h
  · obtain ⟨p', hp', hf⟩ := List.mem_map.1 h
    by_cases hc : p'.1 = e
    · right
      rw [← hf]
      simp [hc]
    · left
      rw [← hf]
      simpa [hc] using hp'
  · rcases List.mem_append.1 h with h1 | h1
    · exact Or.inl h1
    · right
      rw [List.mem_singleton.1 h1]

lemma handle_failed_event_webhook (cfg : Config) (now : Nat) (ev : EventData)
    (err : String) (st : WorkerState) :
    (handle_failed_event cfg now ev err st).webhook_queue = st.webhook_queue := by
  unfold handle_failed_event
  split <;> rfl

lemma handle_fields (cfg : Config) (now : Nat) (ev : EventData) (err : String)
    {st st' : WorkerState} (hr : st'.retry_queue = st.retry_queue)
    (hf : st'.failed_events = st.failed_events) :
    (handle_failed_event cfg now ev err st').retry_queue =
      (handle_failed_event cfg now ev err st).retry_queue ∧
    (handle_failed_event cfg now ev err st').failed_events =
      (handle_failed_event cfg now ev err st).failed_events := by
  unfold handle_failed_event
  split <;> simp [hr, hf]

lemma increment_queues (td : TokenData) (st : WorkerState) :
    (increment_firestore_counter td st).webhook_queue = st.webhook_queue ∧
    (increment_firestore_counter td st).retry_queue = st.retry_queue ∧
    (increment_firestore_counter td st).failed_events = st.failed_events ∧
    (increment_firestore_counter td st).notification_queue = st.notification_queue := by
  simp only [increment_firestore_counter]
  split
  · exact ⟨rfl, rfl, rfl, rfl⟩
  · split
    · exact ⟨rfl, rfl, rfl, rfl⟩
    · exact ⟨rfl, rfl, rfl, rfl⟩

lemma handle_routed (cfg : Config) (now : Nat) (ev : EventData) (err : String)
    (st : WorkerState) : routedTo (handle_failed_event cfg now ev err st) ev := by
  refine ⟨bumpEvent now err ev, rfl, rfl, ?_⟩
  unfold handle_failed_event
  split
  · exact Or.inl ⟨_, zadd_self_mem _ _ _⟩
  · exact Or.inr (by simp)

lemma effect_ok {cfg : Config} {now : Nat} {ev : EventData} {st : WorkerState}
    {carve : Prop} {st' : WorkerState} (b : Bool)
    (hw : st'.webhook_queue = st.webhook_queue)
    (hr : st'.retry_queue = st.retry_queue)
    (hf : st'.failed_events = st.failed_events)
    (hc : b = false → carve) :
    processEffect cfg now ev st carve (b, st') := ⟨hw, Or.inl ⟨hr, hf, hc⟩⟩

lemma effect_fail {cfg : Config} {now : Nat} {ev : EventData} {st : WorkerState}
    {carve : Prop} {stm : WorkerState} (err : String)
    (hw : stm.webhook_queue = st.webhook_queue)
    (hr : stm.retry_queue = st.retry_queue)
    (hf : stm.failed_events = st.failed_events) :
    processEffect cfg now ev st carve (false, handle_failed_event cfg now ev err stm) :=
  ⟨(handle_failed_event_webhook _ _ _ _ _).trans hw,
   Or.inr ⟨rfl, err, (handle_fields _ _ _ _ hr hf).1, (handle_fields _ _ _ _ hr hf).2⟩⟩

lemma processEffect_mono {cfg : Config} {now : Nat} {ev : EventData}
    {st : WorkerState} {r : Bool × WorkerState} {c1 c2 : Prop} (h : c1 → c2)
    (he : processEffect cfg now ev st c1 r) : processEffect cfg now ev st c2 r := by
  obtain ⟨hw, hrest⟩ := he
  refine ⟨hw, ?_⟩
  rcases hrest with ⟨h1, h2, h3⟩ | hr
  · exact Or.inl ⟨h1, h2, fun hb => h (h3 hb)⟩
  · exact Or.inr hr

lemma processEffect_ownership (cfg : Config) (o : Oracle) (now : Nat)
    (ev : EventData) (st : WorkerState) :
    processEffect cfg now ev st False
      (process_ownership_renounced cfg o now ev st) := by
  unfold process_ownership_renounced
  repeat' split
  all_goals first
    | exact effect_ok _ rfl rfl rfl (fun h => nomatch h)
    | exact effect_fail _ rfl rfl rfl

lemma processEffect_new_token (cfg : Config) (o : Oracle) (now : Nat)
    (ev : EventData) (st : WorkerState) :
    processEffect cfg now ev st False
      (process_new_token cfg o now ev st) := by
  unfold process_new_token
  dsimp only
  repeat' split
  all_goals first
    | exact effect_ok _ rfl rfl rfl (fun h => nomatch h)
    | exact effect_fail _ rfl rfl rfl
    | exact effect_ok _ (increment_queues _ _).1 (increment_queues _ _).2.1
        (increment_queues _ _).2.2.1 (fun h => nomatch h)
    | exact effect_fail _ (increment_queues _ _).1 (increment_queues _ _).2.1
        (increment_queues _ _).2.2.1

lemma processEffect_new_pair (cfg : Config) (o : Oracle) (now : Nat)
    (ev : EventData) (st : WorkerState) :
    processEffect cfg now ev st False
      (process_new_pair cfg o now ev st) := by
  unfold process_new_pair
  dsimp only
  repeat' split
  all_goals first
    | exact effect_ok _ rfl rfl rfl (fun h => nomatch h)
    | exact effect_fail _ rfl rfl rfl
    | exact effect_ok _ (increment_queues _ _).1 (increment_queues _ _).2.1
        (increment_queues _ _).2.2.1 (fun h => nomatch h)
    | exact effect_fail _ (increment_queues _ _).1 (increment_queues _ _).2.1
        (increment_queues _ _).2.2.1

lemma processEffect_lock_lp (cfg : Config) (o : Oracle) (now : Nat)
    (ev : EventData) (st : WorkerState) :
    processEffect cfg now ev st (lockCarve ev)
      (process_lock_lp cfg o now ev st) := by
  unfold process_lock_lp
  dsimp only
  rcases hlp : lpTokenOf ev with _ | lp
  · exact effect_ok false rfl rfl rfl (fun _ => Or.inl hlp)
  · dsimp only
    by_cases he : lp = ""
    · rw [if_pos he]
      exact effect_ok false rfl rfl rfl (fun _ => Or.inr (he ▸ hlp))
    · rw [if_neg he]
      repeat' split
      all_goals first
        | exact effect_ok _ rfl rfl rfl (fun h => nomatch h)
        | exact effect_fail _ rfl rfl rfl

lemma processEffect_webhook (cfg : Config) (o : Oracle) (now : Nat)
    (ev : EventData) (st : WorkerState) :
    processEffect cfg now ev st (webhookCarve ev)
      (process_webhook cfg o now ev st) := by
  unfold process_webhook
  split
  · exact processEffect_mono (fun f => f.elim) (processEffect_new_token cfg o now ev st)
  · exact processEffect_mono (fun f => f.elim) (processEffect_new_pair cfg o now ev st)
  · rename_i hty
    exact processEffect_mono (fun hc => Or.inr ⟨hty, hc⟩)
      (processEffect_lock_lp cfg o now ev st)
  · exact processEffect_mono (fun f => f.elim)
      (processEffect_ownership cfg o now ev st)
  · rename_i hcatch
    exact effect_ok false rfl rfl rfl (fun _ => Or.inl (by simp_all))

/-- After one processor run, every retry-queue entry scheduled from a state
whose entries are all due strictly after `now` is still due strictly after
`now`: `handle_failed_event` always schedules at `now + RETRY_DELAY * 2^k`,
which is strictly later whenever `RETRY_DELAY ≥ 1`. -/
lemma process_webhook_retry_scores {cfg : Config} {o : Oracle} {now : Nat}
    {ev : EventData} {st : WorkerState} (hd : 1 ≤ cfg.retryDelay)
    (hin : ∀ p ∈ st.retry_queue, now < p.2) :
    ∀ p ∈ (process_webhook cfg o now ev st).2.retry_queue, now < p.2 := by
  obtain ⟨hw, hrest⟩ := processEffect_webhook cfg o now ev st
  rcases hrest with ⟨h1, _, _⟩ | ⟨_, err, hr, _⟩
  · rw [h1]
    exact hin
  · rw [hr]
    intro p hp
    unfold handle_failed_event at hp
    split at hp
    · rcases zadd_mem_cases hp with h | h
      · exact hin p h
      · rw [h]
        have hpos : 0 < cfg.retryDelay * 2 ^ (ev.retry_count.getD 0 + 1 - 1) := by
          positivity
        omega
    · exact hin p hp

lemma foldl_retry_inv (cfg : Config) (o : Oracle) (now : Nat)
    (hd : 1 ≤ cfg.retryDelay) :
    ∀ (l : List EventData) (st : WorkerState),
      (∀ p ∈ st.retry_queue, now < p.2) →
      (∀ p ∈ (l.foldl (fun s e => (process_webhook cfg o now e s).2) st).retry_queue,
        now < p.2) ∧
      (l.foldl (fun s e => (process_webhook cfg o now e s).2) st).webhook_queue =
        st.webhook_queue := by
  intro l
  induction l with
  | nil =>
    intro st hin
    exact ⟨hin, rfl⟩
  | cons e t ih =>
    intro st hin
    simp only [List.foldl_cons]
    have h1 := @process_webhook_retry_scores cfg o now e st hd hin
    have h2 := (processEffect_webhook cfg o now e st).1
    have h3 := ih ((process_webhook cfg o now e st).2) h1
    exact ⟨h3.1, h3.2.trans h2⟩

end Worker

/-- C1 counterexample: the worker dequeues a `lock_lp` job whose transformed
data carries no LP token address; `process_webhook` returns failure and the
state — retry queue and dead-letter list included — is completely
unchanged: the failing job is dropped with neither routing happening. -/
theorem C1_counterexample :
    Worker.process_webhook cfg0 o0 100 lockEvC1 {} = (false, {}) ∧
    ({} : Worker.WorkerState).retry_queue = [] ∧
    ({} : Worker.WorkerState).failed_events = [] := by
  refine ⟨by decide, rfl, rfl⟩

/-- C1 (amended): every job the worker dequeues whose processing fails is
routed to the retry/backoff contract — an updated copy with `retry_count`
bumped by one is inserted into the retry queue or appended to the
dead-letter list — except when the job fails a malformed-payload pre-check:
an event type outside the four known ones, or a `lock_lp` job whose
transformed data lacks an LP token address; those return failure with
neither happening. -/
theorem C1_amended_claim (cfg : Worker.Config) (o : Worker.Oracle)
    (now : Nat) (ev : EventData) (st : Worker.WorkerState)
    (hres : (Worker.process_webhook cfg o now ev st).1 = false)
    (hknown : ev.event_type = some "new_token" ∨ ev.event_type = some "new_pair" ∨
      ev.event_type = some "lock_lp" ∨ ev.event_type = some "ownership_renounced")
    (hlp : ¬ (ev.event_type = some "lock_lp" ∧ Worker.lockCarve ev)) :
    Worker.routedTo (Worker.process_webhook cfg o now ev st).2 ev := by
  obtain ⟨hw, hrest⟩ := Worker.processEffect_webhook cfg o now ev st
  rcases hrest with ⟨h1, h2, h3⟩ | ⟨_, err, hr, hf⟩
  · exfalso
    rcases h3 hres with ⟨hn1, hn2, hn3, hn4⟩ | hlock
    · rcases hknown with h | h | h | h
      · exact hn1 h
      · exact hn2 h
      · exact hn3 h
      · exact hn4 h
    · exact hlp hlock
  · obtain ⟨e', he1, he2, hmem⟩ := Worker.handle_routed cfg now ev err st
    refine ⟨e', he1, he2, ?_⟩
    rcases hmem with ⟨s, hs⟩ | hfd
    · exact Or.inl ⟨s, by rw [hr]; exact hs⟩
    · exact Or.inr (by rw [hf]; exact hfd)

/-- Witness for C1: a failing `ownership_renounced` job is routed. -/
theorem C1_amended_witness :
    Worker.routedTo (Worker.process_webhook cfg0 oChecksumFail 100 ownEvC1 {}).2 ownEvC1 :=
  C1_amended_claim cfg0 oChecksumFail 100 ownEvC1 {} (by decide) (by decide)
    (by rintro ⟨h, -⟩; simp [ownEvC1] at h)

/-- C2: `handle_failed_event` bumps `retry_count` by exactly one; within the
budget the bumped job is inserted into the retry queue at
`now + RETRY_DELAY * 2^(retry_count - 1)` with the dead-letter list
untouched, past the budget it is appended to `failed_events` with the retry
queue untouched; and with `MAX_RETRIES = 3` a job starting at
`retry_count = 0` never touches `failed_events` during its first three
failures and lands there on exactly its 4th failure. -/
theorem C2_retry_policy_claim (cfg : Worker.Config) (now : Nat)
    (err : String) (ev : EventData) (st : Worker.WorkerState)
    (h3 : cfg.maxRetries = 3) :
    (Worker.bumpEvent now err ev).retry_count = some (ev.retry_count.getD 0 + 1) ∧
    (ev.retry_count.getD 0 + 1 ≤ cfg.maxRetries →
      (Worker.bumpEvent now err ev,
        now + cfg.retryDelay * 2 ^ (ev.retry_count.getD 0 + 1 - 1)) ∈
        (Worker.handle_failed_event cfg now ev err st).retry_queue ∧
      (Worker.handle_failed_event cfg now ev err st).failed_events = st.failed_events) ∧
    (ev.retry_count.getD 0 + 1 > cfg.maxRetries →
      (Worker.handle_failed_event cfg now ev err st).failed_events =
        st.failed_events ++ [Worker.bumpEvent now err ev] ∧
      (Worker.handle_failed_event cfg now ev err st).retry_queue = st.retry_queue) ∧
    (ev.retry_count = some 0 →
      (∀ k, k ≤ 3 →
        (Worker.nthFailure cfg now err ev st k).2.failed_events = st.failed_events) ∧
      (Worker.nthFailure cfg now err ev st 4).2.failed_events =
        st.failed_events ++ [(Worker.nthFailure cfg now err ev st 4).1]) := by
  have hrc0 : ∀ ev' : EventData,
      (Worker.bumpEvent now err ev').retry_count = some (ev'.retry_count.getD 0 + 1) := by
    intro ev'
    rfl
  refine ⟨rfl, ?_, ?_, ?_⟩
  · intro h
    unfold Worker.handle_failed_event
    rw [if_pos h]
    exact ⟨Worker.zadd_self_mem _ _ _, rfl⟩
  · intro h
    unfold Worker.handle_failed_event
    rw [if_neg (by omega)]
    exact ⟨rfl, rfl⟩
  · intro h0
    have hrc : ∀ k, (Worker.nthFailure cfg now err ev st k).1.retry_count = some k := by
      intro k
      induction k with
      | zero => simpa [Worker.nthFailure] using h0
      | succ n ih => simp [Worker.nthFailure, Worker.bumpEvent, ih]
    have hfailed : ∀ k, k ≤ 3 →
        (Worker.nthFailure cfg now err ev st k).2.failed_events = st.failed_events := by
      intro k
      induction k with
      | zero => intro _; rfl
      | succ n ih =>
        intro hk
        show (Worker.handle_failed_event cfg now
          (Worker.nthFailure cfg now err ev st n).1 err
          (Worker.nthFailure cfg now err ev st n).2).failed_events = st.failed_events
        unfold Worker.handle_failed_event
        rw [hrc n]
        rw [if_pos (by simp [h3]; omega)]
        exact ih (by omega)
    refine ⟨hfailed, ?_⟩
    show (Worker.handle_failed_event cfg now
      (Worker.nthFailure cfg now err ev st 3).1 err
      (Worker.nthFailure cfg now err ev st 3).2).failed_events =
      st.failed_events ++ [(Worker.nthFailure cfg now err ev st 4).1]
    unfold Worker.handle_failed_event
    rw [hrc 3]
    rw [if_neg (by simp [h3])]
    rw [hfailed 3 (by omega)]
    rfl

/-- Witness for C2: with `MAX_RETRIES = 3`, a job starting at
`retry_count = 0` lands in the dead-letter list on its 4th failure. -/
theorem C2_retry_policy_witness :
    (Worker.nthFailure cfg0 7 "boom" evC2 {} 4).2.failed_events =
      ({} : Worker.WorkerState).failed_events ++
        [(Worker.nthFailure cfg0 7 "boom" evC2 {} 4).1] :=
  ((C2_retry_policy_claim cfg0 7 "boom" evC2 {} rfl).2.2.2 rfl).2

/-- C3: a merge-update for a token already linked to audit row 7, carrying a
fresh audit, re-links the token to a newly created audit row (id 100) while
row 7 remains in the table unreferenced — the update creates a replacement
child record and orphans the previously linked one, because the guard reads
the never-written `'gpl_audit_results'` key instead of `'gpl_audit_id'`. -/
theorem C3_bug_eval :
    updC3.2.tokens.map (fun r => r.gpl_audit_id) = [some 100] ∧
    updC3.2.gpl_audit.map (fun a => a.id) = [7, 100] ∧
    updC3.1 = .ok (some "0xT") := by
  refine ⟨by decide, by decide, by decide⟩

/-- C5 counterexample: at `now = 10` the entry scheduled at 5 is due; the
scheduler step removes it from the retry queue and processes it directly to
completion — afterwards `webhook_queue` is empty, so the entry was never
re-pushed onto `webhook_queue` as the claim states. -/
theorem C5_counterexample :
    (retryStC5.retry_queue.filter (fun p => p.2 ≤ 10)).map Prod.fst = [ownEvC5] ∧
    Worker.process_retry_queue cfg0 o0 10 retryStC5 = {} := by
  constructor <;> decide

/-- C5 (amended): before each consume attempt the scheduler step reads all
`retry_queue` entries with `ready_at ≤ now`, deletes that score range, and
processes each entry directly through the per-event dispatcher instead of
re-pushing it onto `webhook_queue`: afterwards `webhook_queue` is unchanged,
every remaining `retry_queue` entry has `ready_at > now` (for any
`RETRY_DELAY ≥ 1`), and with no due entry the state is untouched. -/
theorem C5_amended_claim (cfg : Worker.Config) (o : Worker.Oracle)
    (now : Nat) (st : Worker.WorkerState) (hd : 1 ≤ cfg.retryDelay) :
    (Worker.process_retry_queue cfg o now st).webhook_queue = st.webhook_queue ∧
    (∀ p ∈ (Worker.process_retry_queue cfg o now st).retry_queue, now < p.2) ∧
    (st.retry_queue.filter (fun p => p.2 ≤ now) = [] →
      Worker.process_retry_queue cfg o now st = st) := by
  unfold Worker.process_retry_queue
  dsimp only
  by_cases hready : (st.retry_queue.filter (fun p => p.2 ≤ now)).map Prod.fst = []
  · rw [if_pos hready]
    have hfil : st.retry_queue.filter (fun p => p.2 ≤ now) = [] := by
      exact List.map_eq_nil_iff.1 hready
    refine ⟨rfl, ?_, fun _ => rfl⟩
    intro p hp
    by_contra hc
    have hmem : p ∈ st.retry_queue.filter (fun p => p.2 ≤ now) :=
      List.mem_filter.2 ⟨hp, by simpa using Nat.le_of_not_lt hc⟩
    rw [hfil] at hmem
    exact absurd hmem (List.not_mem_nil p)
  · rw [if_neg hready]
    have hinv : ∀ p ∈ (st.retry_queue.filter (fun p => ¬ p.2 ≤ now)), now < p.2 := by
      intro p hp
      have := (List.mem_filter.1 hp).2
      simp at this
      omega
    have hres := Worker.foldl_retry_inv cfg o now hd
      ((st.retry_queue.filter (fun p => p.2 ≤ now)).map Prod.fst)
      { st with retry_queue := st.retry_queue.filter (fun p => ¬ p.2 ≤ now) }
      hinv
    refine ⟨hres.2.trans rfl, hres.1, ?_⟩
    intro hfil
    exact absurd (by rw [hfil]; rfl) hready

/-- Witness for C5: on the concrete retry state, the scheduler step leaves
`webhook_queue` unchanged and no remaining entry is still due. -/
theorem C5_amended_witness :
    (Worker.process_retry_queue cfg0 o0 10 retryStC5).webhook_queue =
      retryStC5.webhook_queue ∧
    (∀ p ∈ (Worker.process_retry_queue cfg0 o0 10 retryStC5).retry_queue, 10 < p.2) :=
  ⟨(C5_amended_claim cfg0 o0 10 retryStC5 (by decide)).1,
   (C5_amended_claim cfg0 o0 10 retryStC5 (by decide)).2.1⟩

/-- C9: a `new_pair` job for a token whose stored record carries
`is_scam = true` terminates as success with the worker state — relational
store, notification queue, counters and all queues — completely
unchanged. -/
theorem C9_scam_pair_noop (cfg : Worker.Config) (o : Worker.Oracle)
    (now : Nat) (ev : EventData) (st : Worker.WorkerState) (cid : String)
    (bn : Nat) (eid pa ta addr : String) (row : Worker.TokenRow)
    (rest : List Worker.TokenRow)
    (ht : ev.event_type = some "new_pair")
    (hcid : ev.chain_id = some cid) (hbn : ev.block_number = some bn)
    (heid : ev.event_id = some eid) (hpa : ev.pair_address = some pa)
    (hta : ev.token_address = some ta) (hw3 : o.web3Init = .ok ())
    (hck : o.checksum ta = .ok addr)
    (hrow : st.db.tokens.filter
      (fun r => r.address = addr ∧ r.blockchain = o.conv cid) = row :: rest)
    (hscam : row.is_scam = some true) :
    Worker.process_webhook cfg o now ev st = (true, st) := by
  unfold Worker.process_webhook
  split
  · rename_i h
    rw [ht] at h
    simp at h
  · unfold Worker.process_new_pair
    rw [hcid, hbn, heid, hpa, hw3, hta]
    dsimp only
    rw [hck]
    dsimp only
    rw [hrow]
    dsimp only
    rw [if_pos hscam]
  · rename_i h
    rw [ht] at h
    simp at h
  · rename_i h
    rw [ht] at h
    simp at h
  · simp_all

/-- Witness for C9: the concrete scam-token `new_pair` job is a no-op
success. -/
theorem C9_witness : Worker.process_webhook cfg0 o0 50 evC9 stC9 = (true, stC9) :=
  C9_scam_pair_noop cfg0 o0 50 evC9 stC9 "0x1" 5 "e9" "0xP" "0xT" "0xT" rowC9 []
    rfl rfl rfl rfl rfl rfl rfl rfl (by decide) rfl

end TokenAlert
